import Mathlib

/-!
Verification development for the gasoradar service (FastAPI + SQLAlchemy).

The definitions below are a shallow embedding of the repository's core read
and write paths: the bulk station-price query and the in-memory filter and
pagination pipeline (`app/services/db_service.py`,
`app/api/gas_stations.py`), price-report ingestion (`app/api/prices.py`,
`DatabaseService.create_price_report`), the price-statistics aggregator, and
the region search endpoints.  Python floats are modelled as rationals,
timestamps as integers (seconds), database tables as lists, and SQL queries
as pure functions over those lists.  Python truthiness tests on optional
parameters (`if latitude and longitude and radius_km:`) are modelled
explicitly.  Definitions marked `Modelled from the spec:` stand for code of
the repository that lives in modules not present here (the SQLAlchemy model
classes and the protection service); these follow the specification text.
-/

namespace Gasoradar

/-! ## String helpers (models of Python `str.lower`, `in`, SQL `ilike`) -/

/-- Model of ASCII lowercasing of a character, as done by Python `str.lower`
on the ASCII station/fuel names this service handles. -/
def lowerChar (c : Char) : Char :=
  if 65 ≤ c.toNat ∧ c.toNat ≤ 90 then Char.ofNat (c.toNat + 32) else c

/-- Model of Python `str.lower()`. -/
def lowerStr (s : String) : String := ⟨s.data.map lowerChar⟩

/-- Model of `needle` being a prefix of `hay` (character lists). -/
def chMatchHead : List Char → List Char → Bool
  | [], _ => true
  | _ :: _, [] => false
  | a :: as, b :: bs => a == b && chMatchHead as bs

/-- Model of Python substring membership `needle in hay` on character lists. -/
def chHasSub (nd : List Char) : List Char → Bool
  | [] => nd.isEmpty
  | b :: bs => chMatchHead nd (b :: bs) || chHasSub nd bs

/-- Case-insensitive substring test: model of both SQL `ilike %x%` and the
endpoint's `x.lower() in y.lower()`. -/
def containsCI (hay needle : String) : Bool :=
  chHasSub (lowerStr needle).data (lowerStr hay).data

/-- Lexicographic order on strings by character code: model of the SQL
`ORDER BY` collation used for `GasStation.name` and `GasPrice.fuel_type`. -/
def strLe : List Char → List Char → Bool
  | [], _ => true
  | _ :: _, [] => false
  | a :: as, b :: bs =>
    if a.toNat < b.toNat then true
    else if b.toNat < a.toNat then false
    else strLe as bs

/-! ## Truthiness of optional request parameters -/

/-- Python truthiness of an optional float: `None` and `0.0` are falsy. -/
def truthyQ : Option ℚ → Bool
  | none => false
  | some x => decide (x ≠ 0)

/-- Python truthiness of an optional int: `None` and `0` are falsy. -/
def truthyN : Option ℕ → Bool
  | none => false
  | some n => decide (n ≠ 0)

/-- Python truthiness of an optional string: `None` and `""` are falsy. -/
def truthyS : Option String → Bool
  | none => false
  | some s => decide (s ≠ "")

/-- Python truthiness of an optional list: `None` and `[]` are falsy. -/
def truthyL : Option (List String) → Bool
  | none => false
  | some l => !l.isEmpty

/-! ## Numeric helpers: banker's rounding and the distance computations -/

/-- Round-half-even to an integer: model of Python's built-in `round` on the
idealised real value of a float. -/
def rhe (q : ℚ) : ℤ :=
  let f : ℤ := ⌊q⌋
  let r : ℚ := q - f
  if r < 1/2 then f
  else if 1/2 < r then f + 1
  else if f % 2 = 0 then f else f + 1

/-- Model of Python `round(x, 2)`. -/
def round2 (q : ℚ) : ℚ := (rhe (q * 100) : ℚ) / 100

/-- Fuel-bounded upward search for the integer square root; recursion depth
is about `√n`, so concrete instances evaluate inside the kernel. -/
def isqrtUp (n : ℕ) : ℕ → ℕ → ℕ
  | 0, k => k
  | f + 1, k => if (k + 1) * (k + 1) ≤ n then isqrtUp n f (k + 1) else k

/-- Integer square root (largest `k` with `k * k ≤ n`). -/
def isqrt (n : ℕ) : ℕ := isqrtUp n n 0

/-- Floor of the square root of a non-negative rational:
`⌊√(a/b)⌋ = ⌊√(a·b)⌋ / b`. -/
def floorSqrtQ (q : ℚ) : ℕ := isqrt (q.num.toNat * q.den) / q.den

/-- Squared coordinate difference used by the in-process distance
approximation in `get_gas_stations` / `get_current_prices`:
`lat_diff ** 2 + lng_diff ** 2`. -/
def distSqQ (lat1 lng1 lat2 lng2 : ℚ) : ℚ := (lat2 - lat1) ^ 2 + (lng2 - lng1) ^ 2

/-- Radius inclusion test of the endpoints, `not (distance_km > radius_km)`
with `distance_km = sqrt(distSq) * 111`: stated equivalently on squares
(`111 ^ 2 = 12321`), which keeps it decidable over `ℚ`; the equivalence with
the real-valued square-root form is proved with claim C7 below. -/
def withinRadius (s : ℚ) (r : ℕ) : Bool := decide (12321 * s ≤ (r : ℚ) ^ 2)

/-- Model of `round(sqrt(s) * 111, 2)`, the `distance_km` annotation: the
value `x = 11100 * √s` is rounded half-to-even via exact integer-square-root
comparisons (`⌊x⌋` via `floorSqrtQ (11100 ^ 2 * s)`, the half-point comparison
`x ≶ n + 1/2` via `4 * 11100 ^ 2 * s ≶ (2n+1) ^ 2`). -/
def roundDist2 (s : ℚ) : ℚ :=
  let t : ℚ := 123210000 * s
  let n : ℕ := floorSqrtQ t
  let k : ℤ :=
    if 4 * t < ((2 * n + 1 : ℕ) : ℚ) ^ 2 then (n : ℤ)
    else if ((2 * n + 1 : ℕ) : ℚ) ^ 2 < 4 * t then (n : ℤ) + 1
    else if n % 2 = 0 then (n : ℤ) else (n : ℤ) + 1
  (k : ℚ) / 100

/-! ## Data model

Rows of the three tables the claims touch (`gas_stations`, `gas_prices`,
`user_price_reports`).  The SQLAlchemy model classes are not part of the
sources here; the fields are modelled from the specification's data model
(§3), keeping the snake_case column names. -/

/-- Row of the `gas_stations` table. -/
structure Station where
  id : String
  name : String
  brand : Option String
  address : Option String
  city : Option String
  state : Option String
  latitude : ℚ
  longitude : ℚ
  has_magna : Bool
  has_premium : Bool
  has_diesel : Bool
  total_reports : ℕ
  last_price_update : Option ℤ
  is_active : Bool
deriving DecidableEq

/-- Row of the `gas_prices` table (the spec's PriceRecord). -/
structure PriceRecord where
  gas_station_id : String
  fuel_type : String
  price : ℚ
  source : String
  confidence_score : ℚ
  validation_status : String
  is_current : Bool
  created_at : ℤ
deriving DecidableEq

/-- Row of the `user_price_reports` table (the spec's PriceReport). -/
structure PriceReport where
  id : ℕ
  gas_station_id : String
  fuel_type : String
  reported_price : ℚ
  comments : Option String
  pump_number : Option ℤ
  reporter_name : Option String
  reporter_ip : String
  status : String
deriving DecidableEq

/-- The relational store the service operates on. -/
structure Store where
  stations : List Station
  prices : List PriceRecord
  reports : List PriceReport
deriving DecidableEq

/-- The `is_current`/`validation_status = validated` condition that selects
the price rows every read path surfaces. -/
def currentValidated (p : PriceRecord) : Bool :=
  p.is_current && p.validation_status == "validated"

/-! ## Bulk station-price query
(`DatabaseService.get_gas_stations_with_prices_bulk`) -/

/-- Sort a list by a Boolean comparison (model of SQL `ORDER BY` and of
Python's stable `list.sort`; `List.insertionSort` is stable). -/
def sortB (f : α → α → Bool) (l : List α) : List α :=
  List.insertionSort (fun a b => f a b = true) l

/-- Services sub-object of a bulk station view. -/
structure Services where
  magna : Bool
  premium : Bool
  diesel : Bool
deriving DecidableEq

/-- Per-fuel price entry of a station view (`current_prices[fuel_type]`). -/
structure PriceInfo where
  price : ℚ
  source : String
  confidence : ℚ
  updated_at : ℤ
  age_hours : ℚ
  is_fresh : Bool
deriving DecidableEq

/-- One station dictionary produced by the bulk query (and later annotated
with `distance_km` by the listing endpoint; absent key modelled as `none`). -/
structure StationView where
  id : String
  name : String
  brand : Option String
  address : Option String
  city : Option String
  state : Option String
  latitude : ℚ
  longitude : ℚ
  services : Services
  current_prices : List (String × PriceInfo)
  distance_km : Option ℚ
deriving DecidableEq

/-- The price dictionary entry built by the bulk query's row loop. -/
def priceInfoOf (now : ℤ) (p : PriceRecord) : PriceInfo :=
  { price := p.price
    source := p.source
    confidence := p.confidence_score
    updated_at := p.created_at
    age_hours := ((now - p.created_at : ℤ) : ℚ) / 3600
    is_fresh := decide (((now - p.created_at : ℤ) : ℚ) / 3600 ≤ 24) }

/-- Station dictionary created when a station id is first seen in the row
loop (`current_prices` starts empty, no `distance_km` key yet). -/
def viewOfStation (s : Station) : StationView :=
  { id := s.id, name := s.name, brand := s.brand, address := s.address
    city := s.city, state := s.state
    latitude := s.latitude, longitude := s.longitude
    services := ⟨s.has_magna, s.has_premium, s.has_diesel⟩
    current_prices := [], distance_km := none }

/-- Insert-or-overwrite of a key in the `current_prices` dictionary
(Python dict assignment keeps the position of an existing key). -/
def upsert (k : String) (i : PriceInfo) : List (String × PriceInfo) → List (String × PriceInfo)
  | [] => [(k, i)]
  | (k0, i0) :: rest => if k0 = k then (k, i) :: rest else (k0, i0) :: upsert k i rest

/-- Loop body `if row.fuel_type and row.price:` adding a price to a station
dictionary; `none` is the NULL price half of a LEFT-JOIN row, and the
truthiness test drops empty fuel names and zero prices. -/
def setPrice (now : ℤ) (pr : Option PriceRecord) (v : StationView) : StationView :=
  match pr with
  | none => v
  | some p =>
    if p.fuel_type ≠ "" ∧ p.price ≠ 0 then
      { v with current_prices := upsert p.fuel_type (priceInfoOf now p) v.current_prices }
    else v

/-- One iteration of the bulk query's `for row in rows` grouping loop over
the `stations_dict` (modelled as an insertion-ordered association list). -/
def addRow (now : ℤ) (acc : List StationView) (r : Station × Option PriceRecord) :
    List StationView :=
  if acc.any (fun v => v.id == r.1.id) then
    acc.map (fun v => if v.id == r.1.id then setPrice now r.2 v else v)
  else
    acc ++ [setPrice now r.2 (viewOfStation r.1)]

/-- The whole grouping loop. -/
def groupStations (now : ℤ) (rows : List (Station × Option PriceRecord)) : List StationView :=
  rows.foldl (addRow now) []

/-- LEFT-JOIN rows contributed by one station: its current validated prices
(ordered by `fuel_type` as the query's `ORDER BY` requires), or a single
NULL-price row when it has none. -/
def stationPriceRows (store : Store) (s : Station) : List (Station × Option PriceRecord) :=
  if (store.prices.filter (fun p => p.gas_station_id == s.id && currentValidated p)).isEmpty then
    [(s, none)]
  else
    (sortB (fun p q => strLe p.fuel_type.data q.fuel_type.data)
      (store.prices.filter (fun p => p.gas_station_id == s.id && currentValidated p))).map
      (fun p => (s, some p))

/-- Candidate stations of the bulk query: active, optionally restricted to
`station_ids` (whose truthiness the query tests). -/
def bulkCandidates (store : Store) (station_ids : Option (List String)) : List Station :=
  if truthyL station_ids then
    (store.stations.filter (fun s => s.is_active)).filter
      (fun s => (station_ids.getD []).contains s.id)
  else store.stations.filter (fun s => s.is_active)

/-- Result rows of the bulk query before its `LIMIT limit * 3`: the
candidate stations ordered by name, LEFT JOINed with current validated
prices, with the `fuel_type = f OR fuel_type IS NULL` filter when a fuel
type is given. -/
def bulkRowsAll (store : Store) (station_ids : Option (List String)) (fuel_type : Option String) :
    List (Station × Option PriceRecord) :=
  if truthyS fuel_type then
    ((sortB (fun a b => strLe a.name.data b.name.data)
        (bulkCandidates store station_ids)).flatMap (stationPriceRows store)).filter (fun r =>
      match r.2 with
      | none => true
      | some p => p.fuel_type == lowerStr (fuel_type.getD ""))
  else
    (sortB (fun a b => strLe a.name.data b.name.data)
      (bulkCandidates store station_ids)).flatMap (stationPriceRows store)

/-- Embedding of `DatabaseService.get_gas_stations_with_prices_bulk`.  The
second component counts the database round trips the call performs: the
function executes exactly one query (`await session.execute(query)`), whose
rows it then groups in memory, so the count is the constant `1`. -/
def get_gas_stations_with_prices_bulk (now : ℤ) (store : Store)
    (station_ids : Option (List String)) (fuel_type : Option String) (limit : ℕ) :
    List StationView × ℕ :=
  ((groupStations now ((bulkRowsAll store station_ids fuel_type).take (limit * 3))).take limit,
   1)

/-! ## Station listing endpoint (`GET /gas-stations/`, `get_gas_stations`) -/

/-- Echo of the applied filters returned in the listing response. -/
structure FiltersEcho where
  latitude : Option ℚ
  longitude : Option ℚ
  radius_km : Option ℕ
  city : Option String
  state : Option String
  brand : Option String
  fuel_type : Option String
deriving DecidableEq

/-- Response of the station listing endpoint. -/
structure StationsResponse where
  stations : List StationView
  total : ℕ
  limit : ℕ
  offset : ℕ
  filters : FiltersEcho
deriving DecidableEq

/-- Geographic stage of the per-station loop: when all of latitude,
longitude and radius are truthy, drop the station unless the flat-earth
distance `sqrt(lat_diff^2 + lng_diff^2) * 111` is within the radius, and
annotate the kept station with the rounded distance. -/
def applyGeo (lat lng : Option ℚ) (radius_km : Option ℕ) (v : StationView) :
    Option StationView :=
  if truthyQ lat && truthyQ lng && truthyN radius_km then
    let s := distSqQ (lat.getD 0) (lng.getD 0) v.latitude v.longitude
    if withinRadius s (radius_km.getD 0) then
      some { v with distance_km := some (roundDist2 s) }
    else none
  else some v

/-- Text stage of the per-station loop: each of city, state and brand, when
truthy, must occur case-insensitively in the station's field (`""` when the
field is NULL). -/
def textFiltersOk (city state brand : Option String) (v : StationView) : Bool :=
  (!truthyS city || containsCI (v.city.getD "") (city.getD "")) &&
  (!truthyS state || containsCI (v.state.getD "") (state.getD "")) &&
  (!truthyS brand || containsCI (v.brand.getD "") (brand.getD ""))

/-- The in-memory filter loop of `get_gas_stations` (geography first, then
the text filters, `continue` modelled by dropping the station). -/
def filterStations (lat lng : Option ℚ) (radius_km : Option ℕ)
    (city state brand : Option String) (views : List StationView) : List StationView :=
  views.filterMap (fun v =>
    match applyGeo lat lng radius_km v with
    | none => none
    | some v2 => if textFiltersOk city state brand v2 then some v2 else none)

/-- Sort key of the final `paginated_stations.sort`:
`x.get("distance_km", 999)`. -/
def distKey (v : StationView) : ℚ := v.distance_km.getD 999

/-- Embedding of the optimised listing endpoint `get_gas_stations`
(`app/api/gas_stations.py`): one bulk query (`station_ids=None`), the
in-memory filter loop, the slice `[offset : offset + limit]`, and then —
only on the already sliced page — the sort by distance when latitude and
longitude are truthy.  The second component counts database round trips. -/
def get_gas_stations (now : ℤ) (store : Store) (lat lng : Option ℚ)
    (radius_km : Option ℕ) (city state brand fuel_type : Option String)
    (limit offset : ℕ) : StationsResponse × ℕ :=
  let bulk := get_gas_stations_with_prices_bulk now store none fuel_type limit
  let filtered := filterStations lat lng radius_km city state brand bulk.1
  let paginated := (filtered.drop offset).take limit
  let paginated :=
    if truthyQ lat && truthyQ lng then
      sortB (fun a b => decide (distKey a ≤ distKey b)) paginated
    else paginated
  ({ stations := paginated
     total := paginated.length
     limit := limit
     offset := offset
     filters := ⟨lat, lng, radius_km, city, state, brand, fuel_type⟩ }, bulk.2)

/-- Station ids of a list of station views, in order. -/
def viewIds (l : List StationView) : List String := l.map (fun v => v.id)

/-- Modelled from the spec (§4.2 and the claim): the pipeline the claim
describes — apply the in-memory filters to the matching stations, sort the
whole filtered sequence by distance ascending, and only then slice
`[offset : offset + limit]` — returning the station ids of the page. -/
def spec_filter_sort_slice (store : Store) (lat lng : Option ℚ) (radius_km : Option ℕ)
    (city state brand : Option String) (limit offset : ℕ) : List String :=
  (((sortB (fun a b => decide (distKey a ≤ distKey b))
      (filterStations lat lng radius_km city state brand
        ((store.stations.filter (fun s => s.is_active)).map viewOfStation))).drop
          offset).take limit).map (fun v => v.id)

/-! ## Single-station current prices (`DatabaseService.get_current_prices`) -/

/-- Fold of `DatabaseService.get_current_prices`: keep only the first
occurrence of each fuel type (`if price.fuel_type not in current_prices`). -/
def collectFirstPerFuel (now : ℤ) (acc : List (String × PriceInfo)) (p : PriceRecord) :
    List (String × PriceInfo) :=
  if acc.any (fun e => e.1 == p.fuel_type) then acc
  else acc ++ [(p.fuel_type, priceInfoOf now p)]

/-- Embedding of `DatabaseService.get_current_prices`: current validated
prices of one station, ordered by `created_at DESC`, organised per fuel
type.  Modelled from the spec: the row methods `calculate_age_hours` and
`is_fresh` live in the absent `models/gas_price.py`; per §4.6 they are age
in hours and the fixed 24-hour freshness threshold, as `priceInfoOf`
computes. -/
def get_current_prices (now : ℤ) (store : Store) (station_id : String) :
    List (String × PriceInfo) :=
  let ps := store.prices.filter (fun p =>
    p.gas_station_id == station_id && currentValidated p)
  let ps := sortB (fun a b => decide (b.created_at ≤ a.created_at)) ps
  ps.foldl (collectFirstPerFuel now) []

/-! ## Price report ingestion -/

/-- Form fields of `POST /prices/report`. -/
structure ReportForm where
  gas_station_id : String
  fuel_type : String
  reported_price : ℚ
  comments : Option String
  pump_number : Option ℤ
  reporter_name : Option String
deriving DecidableEq

/-- FastAPI form constraint on `reported_price` (`Form(..., ge=0)`): the
submission interface accepts any price greater than or equal to zero. -/
def reportedPriceAccepted (p : ℚ) : Bool := decide (0 ≤ p)

/-- Modelled from the spec: `GasPrice.create_from_user_report`
(absent `models/gas_price.py`).  Per §3/§4.3 the derived PriceRecord
normalises the fuel type to lowercase, starts current and validated
(immediate promotion, the policy §9 fixes), and stems from a user report.
The spec does not pin the confidence score; it is irrelevant to the claims
and set to 1 here. -/
def createFromUserReport (now : ℤ) (f : ReportForm) : PriceRecord :=
  { gas_station_id := f.gas_station_id
    fuel_type := lowerStr f.fuel_type
    price := f.reported_price
    source := "user_report"
    confidence_score := 1
    validation_status := "validated"
    is_current := true
    created_at := now }

/-- Modelled from the spec: `UserPriceReport.create_from_form_data` followed
by `process_report()` (absent `models/user_report.py`): the persisted report
row, marked processed once its PriceRecord is derived (§3 PriceReport
lifecycle). -/
def createReportRow (f : ReportForm) (ip : String) (rid : ℕ) : PriceReport :=
  { id := rid
    gas_station_id := f.gas_station_id
    fuel_type := lowerStr f.fuel_type
    reported_price := f.reported_price
    comments := f.comments
    pump_number := f.pump_number
    reporter_name := f.reporter_name
    reporter_ip := ip
    status := "processed" }

/-- Embedding of `DatabaseService.create_price_report`: persist the report,
derive the PriceRecord, update the owning station's counters
(`total_reports += 1`, `last_price_update = now`).  Modelled from the spec:
the supersession of the prior current record for the same station and fuel
type — part of the ingestion contract per §4.3, performed by the absent
model layer — flips `is_current` to false on every earlier record of that
pair. -/
def create_price_report (now : ℤ) (store : Store) (f : ReportForm) (ip : String) :
    Store × PriceReport :=
  let newPrice := createFromUserReport now f
  let report := createReportRow f ip store.reports.length
  let prices := store.prices.map (fun p =>
    if p.gas_station_id = f.gas_station_id ∧ p.fuel_type = lowerStr f.fuel_type then
      { p with is_current := false }
    else p)
  let stations := store.stations.map (fun s =>
    if s.id = f.gas_station_id then
      { s with total_reports := s.total_reports + 1, last_price_update := some now }
    else s)
  ({ stations := stations, prices := prices ++ [newPrice], reports := store.reports ++ [report] },
   report)

/-! ## Report endpoint (`POST /prices/report`, `report_price`) -/

/-- Model of a raised `HTTPException` (status code and detail message). -/
structure HErr where
  status_code : ℕ
  detail : String
deriving DecidableEq

/-- Success payload of `report_price`. -/
structure ReportOk where
  report_id : ℕ
  gas_station_name : String
  fuel_type : String
  reported_price : ℚ
  status : String
deriving DecidableEq

/-- Embedding of `DatabaseService.get_gas_station_by_id`: the first station
with this id that is also active (`scalar_one_or_none` on the filtered
query). -/
def get_gas_station_by_id (store : Store) (station_id : String) : Option Station :=
  (store.stations.filter (fun s => s.id == station_id && s.is_active)).head?

/-- Modelled from the spec: `GasStation.has_fuel_type` (absent
`models/gas_station.py`): whether the station's per-fuel availability flag
for the declared fuel type is set (§4.3 step 2). -/
def hasFuelType (s : Station) (fuel : String) : Bool :=
  if lowerStr fuel = "magna" then s.has_magna
  else if lowerStr fuel = "premium" then s.has_premium
  else if lowerStr fuel = "diesel" then s.has_diesel
  else false

/-- Embedding of the `report_price` endpoint.  `validator` stands for the
outcome of `protection_service.validate_price_report` (an external
collaborator, out of the sources): its acceptance flag and message.  The
endpoint consults the validator FIRST, then checks station existence, then
the fuel availability, and only then persists. -/
def report_price (validator : Bool × String) (now : ℤ) (store : Store)
    (f : ReportForm) (ip : String) : Except HErr (Store × ReportOk) :=
  if validator.1 = false then
    Except.error ⟨400, validator.2⟩
  else
    match get_gas_station_by_id store f.gas_station_id with
    | none => Except.error ⟨404, "Gasolinera no encontrada"⟩
    | some station =>
      if hasFuelType station f.fuel_type = false then
        Except.error ⟨400, "Esta gasolinera no vende " ++ f.fuel_type⟩
      else
        let r := create_price_report now store f ip
        Except.ok (r.1,
          { report_id := r.2.id
            gas_station_name := station.name
            fuel_type := lowerStr f.fuel_type
            reported_price := f.reported_price
            status := r.2.status })

/-! ## Price statistics (`DatabaseService.get_price_statistics`,
`GET /prices/statistics`) -/

/-- Successful statistics payload. -/
structure Stats where
  fuel_type : String
  region : String
  sample_size : ℕ
  average : ℚ
  minimum : ℚ
  maximum : ℚ
  range : ℚ
deriving DecidableEq

/-- Result of the aggregator: either the `{"error": ...}` dictionary or the
statistics — an empty-data signal, not an exception. -/
inductive StatsResult where
  | err : String → StatsResult
  | ok : Stats → StatsResult
deriving DecidableEq

/-- Price column of the statistics query: current validated rows of the
requested fuel type created in the trailing 7 days (the cutoff
`utcnow() - timedelta(days=7)` in seconds), joined against stations and
filtered by region when a region is truthy (SQL join semantics: one row per
matching station). -/
def statisticsPrices (now : ℤ) (store : Store) (fuel_type : String)
    (region : Option String) : List ℚ :=
  let base := store.prices.filter (fun p =>
    p.fuel_type == lowerStr fuel_type &&
    decide (now - 604800 ≤ p.created_at) &&
    p.is_current && p.validation_status == "validated")
  if truthyS region then
    base.flatMap (fun p =>
      (store.stations.filter (fun s =>
        s.id == p.gas_station_id &&
        (containsCI (s.state.getD "") (region.getD "") ||
         containsCI (s.city.getD "") (region.getD "")))).map (fun _ => p.price))
  else base.map (fun p => p.price)

/-- Embedding of `DatabaseService.get_price_statistics`. -/
def get_price_statistics (now : ℤ) (store : Store) (fuel_type : String)
    (region : Option String) : StatsResult :=
  match statisticsPrices now store fuel_type region with
  | [] => StatsResult.err "No hay datos de precios disponibles"
  | p :: ps =>
    StatsResult.ok
      { fuel_type := fuel_type
        region := if truthyS region then region.getD "" else "nacional"
        sample_size := (p :: ps).length
        average := round2 ((p :: ps).sum / (p :: ps).length)
        minimum := ps.foldl min p
        maximum := ps.foldl max p
        range := round2 (ps.foldl max p - ps.foldl min p) }

/-- Embedding of the `GET /prices/statistics` endpoint, which turns the
empty-data signal into a 404. -/
def get_price_statistics_endpoint (now : ℤ) (store : Store) (fuel_type : String)
    (region : Option String) : Except HErr Stats :=
  match get_price_statistics now store fuel_type region with
  | StatsResult.err m => Except.error ⟨404, m⟩
  | StatsResult.ok s => Except.ok s

/-! ## Current prices across stations (`GET /prices/current`) -/

/-- Location sub-dictionary of a current-price entry. -/
structure PriceLocation where
  latitude : ℚ
  longitude : ℚ
  city : Option String
  state : Option String
deriving DecidableEq

/-- One entry of the `/prices/current` response. -/
structure PriceEntry where
  gas_station_id : String
  gas_station_name : String
  gas_station_address : Option String
  gas_station_brand : Option String
  fuel_type : String
  price : ℚ
  source : String
  confidence : ℚ
  updated_at : ℤ
  age_hours : ℚ
  location : PriceLocation
  distance_km : Option ℚ
deriving DecidableEq

/-- Embedding of
`DatabaseService.get_current_prices_all_stations_optimized`: the join of
current validated prices with their active stations, the optional fuel,
city and state filters, ordered by price ascending and capped at `limit`. -/
def get_current_prices_all_stations_optimized (now : ℤ) (store : Store)
    (fuel_type city state : Option String) (limit : ℕ) : List PriceEntry :=
  let rows := store.prices.flatMap (fun p =>
    (store.stations.filter (fun s => s.id == p.gas_station_id)).map (fun s => (p, s)))
  let rows := rows.filter (fun r => currentValidated r.1 && r.2.is_active)
  let rows := if truthyS fuel_type then
      rows.filter (fun r => r.1.fuel_type == lowerStr (fuel_type.getD "")) else rows
  let rows := if truthyS city then
      rows.filter (fun r => containsCI (r.2.city.getD "") (city.getD "")) else rows
  let rows := if truthyS state then
      rows.filter (fun r => containsCI (r.2.state.getD "") (state.getD "")) else rows
  let rows := (sortB (fun a b => decide (a.1.price ≤ b.1.price)) rows).take limit
  rows.map (fun r =>
    { gas_station_id := r.2.id
      gas_station_name := r.2.name
      gas_station_address := r.2.address
      gas_station_brand := r.2.brand
      fuel_type := r.1.fuel_type
      price := r.1.price
      source := r.1.source
      confidence := r.1.confidence_score
      updated_at := r.1.created_at
      age_hours := ((now - r.1.created_at : ℤ) : ℚ) / 3600
      location := ⟨r.2.latitude, r.2.longitude, r.2.city, r.2.state⟩
      distance_km := none })

/-- Filter echo of the `/prices/current` response (its `radius_km` field is
`radius_km if latitude and longitude else None`). -/
structure PriceFiltersEcho where
  fuel_type : Option String
  city : Option String
  state : Option String
  radius_km : Option ℕ
deriving DecidableEq

/-- Response of `/prices/current`. -/
structure PricesResponse where
  prices : List PriceEntry
  total : ℕ
  filters : PriceFiltersEcho
deriving DecidableEq

/-- Embedding of the `get_current_prices` endpoint of `app/api/prices.py`:
the optimised query, then — only when latitude, longitude and radius are all
truthy — the flat-distance radius filter and `distance_km` annotation, then
the `sort_by` ordering (`updated` descending, `distance` only with truthy
coordinates, price otherwise). -/
def prices_current_endpoint (now : ℤ) (store : Store)
    (fuel_type city state : Option String) (lat lng : Option ℚ)
    (radius_km : Option ℕ) (sort_by : String) (limit : ℕ) : PricesResponse :=
  let data := get_current_prices_all_stations_optimized now store fuel_type city state limit
  let data :=
    if truthyQ lat && truthyQ lng && truthyN radius_km then
      data.filterMap (fun e =>
        let s := distSqQ (lat.getD 0) (lng.getD 0) e.location.latitude e.location.longitude
        if withinRadius s (radius_km.getD 0) then
          some { e with distance_km := some (roundDist2 s) }
        else none)
    else data
  let data :=
    if sort_by = "updated" then
      sortB (fun a b => decide (b.updated_at ≤ a.updated_at)) data
    else if sort_by = "distance" ∧ (truthyQ lat && truthyQ lng) = true then
      sortB (fun a b => decide (a.distance_km.getD 999 ≤ b.distance_km.getD 999)) data
    else
      sortB (fun a b => decide (a.price ≤ b.price)) data
  { prices := data
    total := data.length
    filters :=
      ⟨fuel_type, city, state,
       if truthyQ lat && truthyQ lng then radius_km else none⟩ }

/-! ## Cheapest prices by region (`DatabaseService.search_stations_by_region`,
`GET /prices/cheapest`) -/

/-- One row of the region search result. -/
structure CheapEntry where
  gas_station_id : String
  name : String
  brand : Option String
  address : Option String
  latitude : ℚ
  longitude : ℚ
  price : ℚ
  source : String
  confidence : ℚ
  updated_at : ℤ
  age_hours : ℚ
deriving DecidableEq

/-- Embedding of `DatabaseService.search_stations_by_region`: active
stations whose city or state contains the region, joined with their current
validated prices of the fuel type, ordered by price ascending, capped at
`limit`. -/
def search_stations_by_region (now : ℤ) (store : Store) (region fuel_type : String)
    (limit : ℕ) : List CheapEntry :=
  let rows := store.stations.flatMap (fun s =>
    (store.prices.filter (fun p => p.gas_station_id == s.id)).map (fun p => (s, p)))
  let rows := rows.filter (fun r =>
    r.1.is_active &&
    (containsCI (r.1.city.getD "") region || containsCI (r.1.state.getD "") region) &&
    r.2.fuel_type == lowerStr fuel_type &&
    currentValidated r.2)
  let rows := (sortB (fun a b => decide (a.2.price ≤ b.2.price)) rows).take limit
  rows.map (fun r =>
    { gas_station_id := r.1.id
      name := r.1.name
      brand := r.1.brand
      address := r.1.address
      latitude := r.1.latitude
      longitude := r.1.longitude
      price := r.2.price
      source := r.2.source
      confidence := r.2.confidence_score
      updated_at := r.2.created_at
      age_hours := ((now - r.2.created_at : ℤ) : ℚ) / 3600 })

/-- Success payload of `/prices/cheapest`. -/
structure CheapResponse where
  region : String
  fuel_type : String
  total_stations_found : ℕ
  stations : List CheapEntry
deriving DecidableEq

/-- Embedding of the `get_cheapest_prices` endpoint: 400 when neither city
nor state is truthy, `region = city or state`, and — when the region search
returns nothing — a raised 404 rather than an empty result. -/
def get_cheapest_prices (now : ℤ) (store : Store) (fuel_type : String)
    (city state : Option String) (limit : ℕ) : Except HErr CheapResponse :=
  if truthyS city = false ∧ truthyS state = false then
    Except.error ⟨400, "Debe especificar al menos ciudad o estado"⟩
  else
    let region := if truthyS city then city.getD "" else state.getD ""
    match search_stations_by_region now store region fuel_type limit with
    | [] => Except.error ⟨404, "No se encontraron gasolineras en " ++ region⟩
    | l =>
      Except.ok
        { region := region
          fuel_type := lowerStr fuel_type
          total_stations_found := l.length
          stations := l }

/-! ## Distance estimators over the reals -/

/-- Real-valued form of the in-process distance computation of
`get_gas_stations` and `get_current_prices`:
`sqrt(lat_diff ** 2 + lng_diff ** 2) * 111`. -/
noncomputable def approxDistKm (lat1 lng1 lat2 lng2 : ℝ) : ℝ :=
  Real.sqrt ((lat2 - lat1) ^ 2 + (lng2 - lng1) ^ 2) * 111

/-- Modelled from the spec: the Distance Estimator of §4.5 — great-circle
distance in kilometers by the haversine formula with Earth radius 6371 km.
This is the specification-side definition the claim compares the code
against. -/
noncomputable def haversineKm (lat1 lng1 lat2 lng2 : ℝ) : ℝ :=
  2 * 6371 * Real.arcsin (Real.sqrt
    (Real.sin ((lat2 - lat1) * Real.pi / 180 / 2) ^ 2 +
     Real.cos (lat1 * Real.pi / 180) * Real.cos (lat2 * Real.pi / 180) *
       Real.sin ((lng2 - lng1) * Real.pi / 180 / 2) ^ 2))

theorem isqrtUp_spec (n : ℕ) :
    ∀ f k, k * k ≤ n → n < (k + f + 1) * (k + f + 1) →
      isqrtUp n f k * isqrtUp n f k ≤ n ∧ n < (isqrtUp n f k + 1) * (isqrtUp n f k + 1) := by
  intro f
  induction f with
  | zero =>
    intro k hk hub
    simpa [isqrtUp] using ⟨hk, by simpa using hub⟩
  | succ f ih =>
    intro k hk hub
    by_cases h : (k + 1) * (k + 1) ≤ n
    · have hub2 : n < (k + 1 + f + 1) * (k + 1 + f + 1) := by
        have he : k + 1 + f + 1 = k + (f + 1) + 1 := by omega
        rw [he]; exact hub
      have := ih (k + 1) h hub2
      simpa [isqrtUp, h] using this
    · have h2 : n < (k + 1) * (k + 1) := by omega
      simpa [isqrtUp, h] using ⟨hk, h2⟩

/-- The integer square root really brackets `n`. -/
theorem isqrt_spec (n : ℕ) : isqrt n * isqrt n ≤ n ∧ n < (isqrt n + 1) * (isqrt n + 1) := by
  have := isqrtUp_spec n n 0 (by omega) (by nlinarith)
  simpa [isqrt] using this

/-- The rational integer-square-root floor really brackets its argument:
`floorSqrtQ q = ⌊√q⌋`. -/
theorem floorSqrtQ_bracket (q : ℚ) (h : 0 ≤ q) :
    ((floorSqrtQ q : ℕ) : ℝ) ^ 2 ≤ (q : ℝ) ∧
      (q : ℝ) < (((floorSqrtQ q : ℕ) : ℝ) + 1) ^ 2 := by
  have hb : 0 < q.den := q.den_pos
  have ha : ((q.num.toNat : ℕ) : ℝ) = (q.num : ℝ) := by
    exact_mod_cast Int.toNat_of_nonneg (Rat.num_nonneg.2 h)
  have hq : (q : ℝ) = ((q.num.toNat : ℕ) : ℝ) / ((q.den : ℕ) : ℝ) := by
    rw [ha, Rat.cast_def]
  have hm := isqrt_spec (q.num.toNat * q.den)
  have hk1 : isqrt (q.num.toNat * q.den) / q.den * q.den ≤ isqrt (q.num.toNat * q.den) :=
    Nat.div_mul_le_self _ _
  have hk2 : isqrt (q.num.toNat * q.den) <
      (isqrt (q.num.toNat * q.den) / q.den + 1) * q.den := by
    have h1 := Nat.mod_lt (isqrt (q.num.toNat * q.den)) hb
    calc isqrt (q.num.toNat * q.den)
        = q.den * (isqrt (q.num.toNat * q.den) / q.den) +
            isqrt (q.num.toNat * q.den) % q.den :=
          (Nat.div_add_mod (isqrt (q.num.toNat * q.den)) q.den).symm
      _ < q.den * (isqrt (q.num.toNat * q.den) / q.den) + q.den := by omega
      _ = (isqrt (q.num.toNat * q.den) / q.den + 1) * q.den := by ring
  have hlow : (isqrt (q.num.toNat * q.den) / q.den) * (isqrt (q.num.toNat * q.den) / q.den) *
      q.den ≤ q.num.toNat := by
    have h1 : (isqrt (q.num.toNat * q.den) / q.den * q.den) *
        (isqrt (q.num.toNat * q.den) / q.den * q.den) ≤ q.num.toNat * q.den :=
      le_trans (Nat.mul_le_mul hk1 hk1) hm.1
    have h2 : (isqrt (q.num.toNat * q.den) / q.den) * (isqrt (q.num.toNat * q.den) / q.den) *
        q.den * q.den ≤ q.num.toNat * q.den := by
      calc (isqrt (q.num.toNat * q.den) / q.den) * (isqrt (q.num.toNat * q.den) / q.den) *
          q.den * q.den
          = (isqrt (q.num.toNat * q.den) / q.den * q.den) *
            (isqrt (q.num.toNat * q.den) / q.den * q.den) := by ring
        _ ≤ q.num.toNat * q.den := h1
    exact Nat.le_of_mul_le_mul_right h2 hb
  have hhigh : q.num.toNat < (isqrt (q.num.toNat * q.den) / q.den + 1) *
      (isqrt (q.num.toNat * q.den) / q.den + 1) * q.den := by
    have h1 : q.num.toNat * q.den <
        ((isqrt (q.num.toNat * q.den) / q.den + 1) * q.den) *
          ((isqrt (q.num.toNat * q.den) / q.den + 1) * q.den) := by
      calc q.num.toNat * q.den
          < (isqrt (q.num.toNat * q.den) + 1) * (isqrt (q.num.toNat * q.den) + 1) := hm.2
        _ ≤ ((isqrt (q.num.toNat * q.den) / q.den + 1) * q.den) *
              ((isqrt (q.num.toNat * q.den) / q.den + 1) * q.den) :=
            Nat.mul_le_mul hk2 hk2
    have h2 : q.num.toNat * q.den <
        (isqrt (q.num.toNat * q.den) / q.den + 1) *
          (isqrt (q.num.toNat * q.den) / q.den + 1) * q.den * q.den := by
      calc q.num.toNat * q.den
          < ((isqrt (q.num.toNat * q.den) / q.den + 1) * q.den) *
              ((isqrt (q.num.toNat * q.den) / q.den + 1) * q.den) := h1
        _ = (isqrt (q.num.toNat * q.den) / q.den + 1) *
              (isqrt (q.num.toNat * q.den) / q.den + 1) * q.den * q.den := by ring
    exact Nat.lt_of_mul_lt_mul_right h2
  have hbR : (0 : ℝ) < ((q.den : ℕ) : ℝ) := by exact_mod_cast hb
  constructor
  · rw [hq, le_div_iff₀ hbR]
    unfold floorSqrtQ
    calc ((isqrt (q.num.toNat * q.den) / q.den : ℕ) : ℝ) ^ 2 * ((q.den : ℕ) : ℝ)
        = (((isqrt (q.num.toNat * q.den) / q.den) * (isqrt (q.num.toNat * q.den) / q.den) *
            q.den : ℕ) : ℝ) := by push_cast; ring
      _ ≤ ((q.num.toNat : ℕ) : ℝ) := by exact_mod_cast hlow
  · rw [hq, div_lt_iff₀ hbR]
    unfold floorSqrtQ
    calc ((q.num.toNat : ℕ) : ℝ)
        < (((isqrt (q.num.toNat * q.den) / q.den + 1) *
            (isqrt (q.num.toNat * q.den) / q.den + 1) * q.den : ℕ) : ℝ) := by
          exact_mod_cast hhigh
      _ = (((isqrt (q.num.toNat * q.den) / q.den : ℕ) : ℝ) + 1) ^ 2 * ((q.den : ℕ) : ℝ) := by
          push_cast; ring

/-- Faithfulness of the `distance_km` annotation: `roundDist2 s` differs
from the real value `√s * 111` it rounds by at most half of the last
retained decimal place (1/200 of a kilometer). -/
theorem roundDist2_approx (s : ℚ) (h : 0 ≤ s) :
    |(roundDist2 s : ℝ) - Real.sqrt (s : ℝ) * 111| ≤ 1 / 200 := by
  have ht : (0 : ℚ) ≤ 123210000 * s := by positivity
  have hbr := floorSqrtQ_bracket (123210000 * s) ht
  have htR : ((123210000 * s : ℚ) : ℝ) = 123210000 * (s : ℝ) := by push_cast; ring
  have hsR : (0 : ℝ) ≤ (s : ℝ) := by exact_mod_cast h
  have hx : Real.sqrt ((123210000 * s : ℚ) : ℝ) = 100 * (Real.sqrt (s : ℝ) * 111) := by
    rw [htR]
    rw [show (123210000 : ℝ) = 11100 ^ 2 by norm_num]
    rw [Real.sqrt_mul (by positivity) (s : ℝ), Real.sqrt_sq (by norm_num : (0:ℝ) ≤ 11100)]
    ring
  have hnn : (0 : ℝ) ≤ ((123210000 * s : ℚ) : ℝ) := by
    rw [htR]; positivity
  have hx1 : ((floorSqrtQ (123210000 * s) : ℕ) : ℝ) ≤
      Real.sqrt ((123210000 * s : ℚ) : ℝ) :=
    (Real.le_sqrt (by positivity) hnn).2 hbr.1
  have hx2 : Real.sqrt ((123210000 * s : ℚ) : ℝ) <
      ((floorSqrtQ (123210000 * s) : ℕ) : ℝ) + 1 :=
    (Real.sqrt_lt' (by positivity)).2 hbr.2
  have hkey : ∀ k : ℤ,
      |(k : ℝ) - Real.sqrt ((123210000 * s : ℚ) : ℝ)| ≤ 1 / 2 →
      roundDist2 s = ((k : ℚ) / 100 : ℚ) →
      |(roundDist2 s : ℝ) - Real.sqrt (s : ℝ) * 111| ≤ 1 / 200 := by
    intro k hk hval
    rw [hval]
    push_cast
    rw [show ((k : ℝ) / 100 - Real.sqrt (s : ℝ) * 111)
        = ((k : ℝ) - 100 * (Real.sqrt (s : ℝ) * 111)) / 100 by ring]
    rw [abs_div]
    rw [show |(100 : ℝ)| = 100 by norm_num]
    rw [div_le_iff₀ (by norm_num : (0:ℝ) < 100)]
    rw [← hx]
    calc |(k : ℝ) - Real.sqrt ((123210000 * s : ℚ) : ℝ)| ≤ 1 / 2 := hk
      _ = 1 / 200 * 100 := by norm_num
  by_cases hc1 : 4 * (123210000 * s) <
      ((2 * floorSqrtQ (123210000 * s) + 1 : ℕ) : ℚ) ^ 2
  · refine hkey (floorSqrtQ (123210000 * s)) ?_ ?_
    · have hc1R : ((123210000 * s : ℚ) : ℝ) <
          (((floorSqrtQ (123210000 * s) : ℕ) : ℝ) + 1 / 2) ^ 2 := by
        have : ((4 * (123210000 * s) : ℚ) : ℝ) <
            (((2 * floorSqrtQ (123210000 * s) + 1 : ℕ) : ℚ) : ℝ) ^ 2 := by
          exact_mod_cast hc1
        push_cast at this
        nlinarith [this]
      have hlt : Real.sqrt ((123210000 * s : ℚ) : ℝ) <
          ((floorSqrtQ (123210000 * s) : ℕ) : ℝ) + 1 / 2 :=
        (Real.sqrt_lt' (by positivity)).2 hc1R
      rw [abs_le]
      simp only [Int.cast_natCast]
      constructor <;> [linarith [hlt]; linarith [hx1]]
    · simp only [roundDist2]
      rw [if_pos hc1]
  · by_cases hc2 : ((2 * floorSqrtQ (123210000 * s) + 1 : ℕ) : ℚ) ^ 2 <
        4 * (123210000 * s)
    · refine hkey ((floorSqrtQ (123210000 * s) : ℤ) + 1) ?_ ?_
      · have hc2R : (((floorSqrtQ (123210000 * s) : ℕ) : ℝ) + 1 / 2) ^ 2 <
            ((123210000 * s : ℚ) : ℝ) := by
          have : (((2 * floorSqrtQ (123210000 * s) + 1 : ℕ) : ℚ) : ℝ) ^ 2 <
              ((4 * (123210000 * s) : ℚ) : ℝ) := by
            exact_mod_cast hc2
          push_cast at this
          nlinarith [this]
        have hgt : ((floorSqrtQ (123210000 * s) : ℕ) : ℝ) + 1 / 2 <
            Real.sqrt ((123210000 * s : ℚ) : ℝ) :=
          (Real.lt_sqrt (by positivity)).2 hc2R
        rw [abs_le]
        simp only [Int.cast_add, Int.cast_natCast, Int.cast_one]
        constructor <;> [linarith [hgt]; linarith [hx2]]
      · simp only [roundDist2]
        rw [if_neg hc1, if_pos hc2]
    · have heq : 4 * (123210000 * s) =
          ((2 * floorSqrtQ (123210000 * s) + 1 : ℕ) : ℚ) ^ 2 := le_antisymm
        (le_of_not_lt hc2) (le_of_not_lt hc1)
      have hxeq : Real.sqrt ((123210000 * s : ℚ) : ℝ) =
          ((floorSqrtQ (123210000 * s) : ℕ) : ℝ) + 1 / 2 := by
        have heqR : ((123210000 * s : ℚ) : ℝ) =
            (((floorSqrtQ (123210000 * s) : ℕ) : ℝ) + 1 / 2) ^ 2 := by
          have : ((4 * (123210000 * s) : ℚ) : ℝ) =
              (((2 * floorSqrtQ (123210000 * s) + 1 : ℕ) : ℚ) : ℝ) ^ 2 := by
            exact_mod_cast heq
          push_cast at this
          nlinarith [this]
        rw [heqR, Real.sqrt_sq (by positivity)]
      by_cases hpar : floorSqrtQ (123210000 * s) % 2 = 0
      · refine hkey (floorSqrtQ (123210000 * s)) ?_ ?_
        · rw [hxeq]
          rw [abs_le]
          simp only [Int.cast_natCast]
          constructor <;> linarith
        · simp only [roundDist2]
          rw [if_neg hc1, if_neg hc2, if_pos hpar]
      · refine hkey ((floorSqrtQ (123210000 * s) : ℤ) + 1) ?_ ?_
        · rw [hxeq]
          rw [abs_le]
          simp only [Int.cast_add, Int.cast_natCast, Int.cast_one]
          constructor <;> linarith
        · simp only [roundDist2]
          rw [if_neg hc1, if_neg hc2, if_neg hpar]

/-! ## Claim C7: the in-process distance estimator -/

/-- C7 counterexample: the claim says the in-process Distance Estimator used
for radius inclusion and distance annotation is the haversine great-circle
distance with Earth radius 6371 km; but the endpoint formula
`sqrt(lat_diff^2 + lng_diff^2) * 111` disagrees with the haversine distance
already at the concrete pair (0°, 0°)–(0°, 180°), where it yields 19980 km
while the haversine distance is 6371·π km. -/
theorem c7_counterexample_flat_not_haversine :
    approxDistKm 0 0 0 180 ≠ haversineKm 0 0 0 180 := by
  have h2 : approxDistKm 0 0 0 180 = 19980 := by
    unfold approxDistKm
    rw [show ((0:ℝ) - 0) ^ 2 + ((180:ℝ) - 0) ^ 2 = 180 ^ 2 by norm_num]
    rw [Real.sqrt_sq (by norm_num : (0:ℝ) ≤ 180)]
    norm_num
  have h1 : haversineKm 0 0 0 180 = 6371 * Real.pi := by
    unfold haversineKm
    rw [show ((0:ℝ) - 0) * Real.pi / 180 / 2 = 0 by ring]
    rw [show ((180:ℝ) - 0) * Real.pi / 180 / 2 = Real.pi / 2 by ring]
    rw [show (0:ℝ) * Real.pi / 180 = 0 by ring]
    rw [Real.sin_zero, Real.cos_zero, Real.sin_pi_div_two]
    rw [show (0:ℝ) ^ 2 + 1 * 1 * 1 ^ 2 = 1 by norm_num]
    rw [Real.sqrt_one, Real.arcsin_one]
    ring
  rw [h1, h2]
  intro h
  have hπ : Real.pi = ((19980 / 6371 : ℚ) : ℝ) := by
    push_cast
    linarith
  exact irrational_pi ⟨19980 / 6371, hπ.symm⟩

/-- C7 amended: the in-process Distance Estimator used for final radius
inclusion/exclusion is the flat equirectangular approximation
`sqrt(lat_diff^2 + lng_diff^2) * 111` kilometers, not the haversine
great-circle distance: the pipeline's radius test accepts a pair of
coordinates exactly when that approximation is at most `radius_km`. -/
theorem c7_amended_radius_test_is_flat_distance
    (lat1 lng1 lat2 lng2 : ℚ) (r : ℕ) :
    withinRadius (distSqQ lat1 lng1 lat2 lng2) r = true ↔
      approxDistKm (lat1 : ℝ) (lng1 : ℝ) (lat2 : ℝ) (lng2 : ℝ) ≤ (r : ℝ) := by
  unfold withinRadius distSqQ approxDistKm
  rw [decide_eq_true_eq]
  have hc : (12321 * ((lat2 - lat1) ^ 2 + (lng2 - lng1) ^ 2) ≤ (r : ℚ) ^ 2) ↔
      (12321 * (((lat2 : ℝ) - (lat1 : ℝ)) ^ 2 + ((lng2 : ℝ) - (lng1 : ℝ)) ^ 2) ≤ (r : ℝ) ^ 2) := by
    rw [show (12321 * (((lat2 : ℝ) - (lat1 : ℝ)) ^ 2 + ((lng2 : ℝ) - (lng1 : ℝ)) ^ 2) : ℝ)
        = ((12321 * ((lat2 - lat1) ^ 2 + (lng2 - lng1) ^ 2) : ℚ) : ℝ) by push_cast; ring]
    rw [show ((r : ℝ) ^ 2) = (((r : ℚ) ^ 2 : ℚ) : ℝ) by push_cast; ring]
    exact Rat.cast_le.symm
  rw [hc]
  rw [← le_div_iff₀ (by norm_num : (0:ℝ) < 111)]
  rw [Real.sqrt_le_left (by positivity)]
  rw [show ((r : ℝ) / 111) ^ 2 = (r : ℝ) ^ 2 / 12321 by ring]
  rw [le_div_iff₀ (by norm_num : (0:ℝ) < 12321)]
  constructor <;> intro h <;> linarith

/-! ## Claim C1: bulk query round trips -/

/-- C1: the bulk station-price query issues a constant number of database
round trips — here exactly one, hence at most two — for every store and
every filter combination; in particular the count is the same for any two
stores, however many stations match. -/
theorem c1_bulk_round_trips_constant (now : ℤ) (store store2 : Store)
    (station_ids : Option (List String)) (fuel_type : Option String) (limit : ℕ) :
    (get_gas_stations_with_prices_bulk now store station_ids fuel_type limit).2 = 1 ∧
    (get_gas_stations_with_prices_bulk now store station_ids fuel_type limit).2 ≤ 2 ∧
    (get_gas_stations_with_prices_bulk now store station_ids fuel_type limit).2 =
      (get_gas_stations_with_prices_bulk now store2 station_ids fuel_type limit).2 := by
  refine ⟨rfl, ?_, rfl⟩
  show 1 ≤ 2
  norm_num

/-! ## Claim C5: order of the report preconditions -/

/-- C5 counterexample: the claim says a nonexistent station fails with
NotFound and that the external validation collaborator is consulted only
after the station and fuel checks pass.  But on an empty store (the station
does not exist) with a rejecting validator, `report_price` returns the
validator's 400 rejection, not the 404 NotFound. -/
theorem c5_counterexample_validator_first :
    report_price (false, "Demasiados reportes desde esta IP") 0 ⟨[], [], []⟩
        ⟨"s1", "magna", 20, none, none, none⟩ "1.2.3.4" =
      Except.error ⟨400, "Demasiados reportes desde esta IP"⟩ ∧
    (⟨400, "Demasiados reportes desde esta IP"⟩ : HErr) ≠ ⟨404, "Gasolinera no encontrada"⟩ := by
  exact ⟨rfl, by decide⟩

/-- C5 amended: the preconditions are checked in the order validator first,
then station, then fuel type — the external validation collaborator is
consulted for every inbound report, and its rejection fails with the 400
error carrying the collaborator's message verbatim; only for reports the
collaborator accepts is the station checked (missing or inactive station
gives the 404 NotFound), and then the fuel type (a fuel the station does not
sell gives the 400 InvalidRequest); a report passing all three is
persisted. -/
theorem c5_amended_check_order (v : Bool × String) (now : ℤ) (store : Store)
    (f : ReportForm) (ip : String) :
    (v.1 = false → report_price v now store f ip = Except.error ⟨400, v.2⟩) ∧
    (v.1 = true → get_gas_station_by_id store f.gas_station_id = none →
      report_price v now store f ip = Except.error ⟨404, "Gasolinera no encontrada"⟩) ∧
    (∀ st, v.1 = true → get_gas_station_by_id store f.gas_station_id = some st →
      hasFuelType st f.fuel_type = false →
      report_price v now store f ip =
        Except.error ⟨400, "Esta gasolinera no vende " ++ f.fuel_type⟩) ∧
    (∀ st, v.1 = true → get_gas_station_by_id store f.gas_station_id = some st →
      hasFuelType st f.fuel_type = true →
      report_price v now store f ip =
        Except.ok ((create_price_report now store f ip).1,
          { report_id := (create_price_report now store f ip).2.id
            gas_station_name := st.name
            fuel_type := lowerStr f.fuel_type
            reported_price := f.reported_price
            status := (create_price_report now store f ip).2.status })) := by
  refine ⟨?_, ?_, ?_, ?_⟩
  · intro hv
    simp [report_price, hv]
  · intro hv hst
    simp [report_price, hv, hst]
  · intro st hv hst hf
    simp [report_price, hv, hst, hf]
  · intro st hv hst hf
    simp [report_price, hv, hst, hf]

/-- C5 witness: an inactive station exists, the validator accepts, and the
endpoint answers 404; a fuel the station does not sell answers the 400 with
the fuel name; and a rejecting validator's message is forwarded. -/
theorem c5_amended_check_order_witness :
    report_price (true, "ok") 7
        ⟨[⟨"s1", "Pemex Centro", none, none, none, none, 19, -99, true, true, false, 0, none,
           false⟩], [], []⟩
        ⟨"s1", "magna", 20, none, none, none⟩ "1.2.3.4" =
      Except.error ⟨404, "Gasolinera no encontrada"⟩ ∧
    report_price (true, "ok") 7
        ⟨[⟨"s1", "Pemex Centro", none, none, none, none, 19, -99, true, true, false, 0, none,
           true⟩], [], []⟩
        ⟨"s1", "diesel", 20, none, none, none⟩ "1.2.3.4" =
      Except.error ⟨400, "Esta gasolinera no vende diesel"⟩ ∧
    report_price (false, "Precio fuera de rango") 7 ⟨[], [], []⟩
        ⟨"s1", "magna", 20, none, none, none⟩ "1.2.3.4" =
      Except.error ⟨400, "Precio fuera de rango"⟩ := by
  refine ⟨?_, ?_, ?_⟩
  · exact (c5_amended_check_order (true, "ok") 7
      ⟨[⟨"s1", "Pemex Centro", none, none, none, none, 19, -99, true, true, false, 0, none,
         false⟩], [], []⟩
      ⟨"s1", "magna", 20, none, none, none⟩ "1.2.3.4").2.1 rfl (by decide)
  · exact (c5_amended_check_order (true, "ok") 7
      ⟨[⟨"s1", "Pemex Centro", none, none, none, none, 19, -99, true, true, false, 0, none,
         true⟩], [], []⟩
      ⟨"s1", "diesel", 20, none, none, none⟩ "1.2.3.4").2.2.1
      ⟨"s1", "Pemex Centro", none, none, none, none, 19, -99, true, true, false, 0, none, true⟩
      rfl (by decide) (by decide)
  · exact (c5_amended_check_order (false, "Precio fuera de rango") 7 ⟨[], [], []⟩
      ⟨"s1", "magna", 20, none, none, none⟩ "1.2.3.4").1 rfl

/-! ## Claim C8: behaviour of read endpoints on empty matches -/

/-- C8 counterexample: the claim says every read endpoint returns an empty
result set with total 0 rather than an error when nothing matches; but the
cheapest-prices read endpoint raises a 404 on a filter combination matching
nothing. -/
theorem c8_counterexample_cheapest_raises :
    get_cheapest_prices 0 ⟨[], [], []⟩ "magna" (some "Monterrey") none 10 =
      Except.error ⟨404, "No se encontraron gasolineras en Monterrey"⟩ := by
  rfl

/-- C8 amended: the station-listing and current-prices endpoints do return an
empty sequence with total 0 (total always equals the length of the returned
sequence, and no station matching yields the empty sequence); the
cheapest-prices endpoint instead raises a 404 NotFound when the region
search returns no rows. -/
theorem c8_amended_empty_results (now : ℤ) (store : Store) (lat lng : Option ℚ)
    (radius_km : Option ℕ) (city state brand fuel_type : Option String)
    (limit offset : ℕ) (sort_by : String) (fuel2 : String) (city2 : Option String)
    (limit2 : ℕ) :
    ((get_gas_stations now store lat lng radius_km city state brand fuel_type limit offset).1.total
      = (get_gas_stations now store lat lng radius_km city state brand fuel_type limit
          offset).1.stations.length) ∧
    (store.stations.filter (fun s => s.is_active) = [] →
      (get_gas_stations now store lat lng radius_km city state brand fuel_type limit
          offset).1.stations = [] ∧
      (get_gas_stations now store lat lng radius_km city state brand fuel_type limit
          offset).1.total = 0) ∧
    ((prices_current_endpoint now store fuel_type city state lat lng radius_km sort_by
        limit).total
      = (prices_current_endpoint now store fuel_type city state lat lng radius_km sort_by
          limit).prices.length) ∧
    (truthyS city2 = true →
      search_stations_by_region now store (city2.getD "") fuel2 limit2 = [] →
      get_cheapest_prices now store fuel2 city2 none limit2 =
        Except.error ⟨404, "No se encontraron gasolineras en " ++ city2.getD ""⟩) := by
  refine ⟨rfl, ?_, rfl, ?_⟩
  · intro h
    have hs : (get_gas_stations now store lat lng radius_km city state brand fuel_type limit
        offset).1.stations = [] := by
      unfold get_gas_stations get_gas_stations_with_prices_bulk bulkRowsAll bulkCandidates
      rw [h]
      simp [truthyL, sortB, groupStations, filterStations]
    refine ⟨hs, ?_⟩
    show (get_gas_stations now store lat lng radius_km city state brand fuel_type limit
        offset).1.stations.length = 0
    rw [hs]
    rfl
  · intro hc hs
    simp [get_cheapest_prices, hc, hs]

/-- C8 witness: a store whose only station is inactive; the listing endpoint
returns the empty sequence with total 0, and the cheapest endpoint raises
the 404. -/
theorem c8_amended_empty_results_witness :
    (get_gas_stations 5
        ⟨[⟨"s1", "Pemex Norte", none, none, some "Monterrey", some "NL", 25, -100, true, true,
           true, 0, none, false⟩],
         [⟨"s1", "magna", 22, "user_report", 1, "validated", true, 0⟩], []⟩
        none none (some 25) none none none none 50 0).1.stations = [] ∧
    (get_gas_stations 5
        ⟨[⟨"s1", "Pemex Norte", none, none, some "Monterrey", some "NL", 25, -100, true, true,
           true, 0, none, false⟩],
         [⟨"s1", "magna", 22, "user_report", 1, "validated", true, 0⟩], []⟩
        none none (some 25) none none none none 50 0).1.total = 0 ∧
    get_cheapest_prices 5
        ⟨[⟨"s1", "Pemex Norte", none, none, some "Monterrey", some "NL", 25, -100, true, true,
           true, 0, none, false⟩],
         [⟨"s1", "magna", 22, "user_report", 1, "validated", true, 0⟩], []⟩
        "magna" (some "Monterrey") none 10 =
      Except.error ⟨404, "No se encontraron gasolineras en Monterrey"⟩ := by
  have h := c8_amended_empty_results 5
    ⟨[⟨"s1", "Pemex Norte", none, none, some "Monterrey", some "NL", 25, -100, true, true,
       true, 0, none, false⟩],
     [⟨"s1", "magna", 22, "user_report", 1, "validated", true, 0⟩], []⟩
    none none (some 25) none none none none 50 0 "price" "magna" (some "Monterrey") 10
  obtain ⟨-, h2, -, h4⟩ := h
  obtain ⟨he, ht⟩ := h2 (by decide)
  exact ⟨he, ht, h4 (by decide) (by decide)⟩

/-! ## Claim C9: zero coordinates are treated as absent -/

/-- C9 counterexample: the claim says a request with latitude 0.0 (a truthy
test rather than a presence test) produces a response identical to the
request without coordinates; for the station-listing endpoint the two
responses differ — the verbatim filter echo reports latitude 0.0 in one and
null in the other — even though the station lists agree. -/
theorem c9_counterexample_echo_differs :
    (get_gas_stations 0 ⟨[], [], []⟩ (some 0) (some 1) (some 25) none none none none 50
        0).1 ≠
      (get_gas_stations 0 ⟨[], [], []⟩ none none (some 25) none none none none 50 0).1 := by
  decide

/-- C9 amended: when latitude or longitude is supplied as 0.0 (so its Python
truthiness test fails), radius filtering, distance annotation and distance
sorting are all silently skipped: the station list and total of the listing
response, and the entire current-prices response, are identical to those of
the same request with no coordinates supplied at all (only the listing
response's verbatim filter echo still shows the supplied coordinates). -/
theorem c9_amended_zero_coordinate_skips_geo (now : ℤ) (store : Store)
    (fuel_type city state brand : Option String) (lat lng : Option ℚ)
    (radius_km : Option ℕ) (sort_by : String) (limit offset limit2 : ℕ)
    (h : truthyQ lat = false ∨ truthyQ lng = false) :
    ((get_gas_stations now store lat lng radius_km city state brand fuel_type limit
        offset).1.stations =
      (get_gas_stations now store none none radius_km city state brand fuel_type limit
        offset).1.stations) ∧
    ((get_gas_stations now store lat lng radius_km city state brand fuel_type limit
        offset).1.total =
      (get_gas_stations now store none none radius_km city state brand fuel_type limit
        offset).1.total) ∧
    (prices_current_endpoint now store fuel_type city state lat lng radius_km sort_by limit2 =
      prices_current_endpoint now store fuel_type city state none none radius_km sort_by
        limit2) := by
  have hs : (get_gas_stations now store lat lng radius_km city state brand fuel_type limit
      offset).1.stations =
      (get_gas_stations now store none none radius_km city state brand fuel_type limit
        offset).1.stations := by
    have hnone : truthyQ none = false := rfl
    rcases h with h | h <;>
      simp [get_gas_stations, filterStations, applyGeo, h, hnone]
  refine ⟨hs, ?_, ?_⟩
  · show (get_gas_stations now store lat lng radius_km city state brand fuel_type limit
        offset).1.stations.length = _
    rw [hs]
    rfl
  · have hnone : truthyQ none = false := rfl
    rcases h with h | h <;>
      simp [prices_current_endpoint, h, hnone]

/-- C9 witness: a concrete request with latitude 0.0, a longitude and a
radius over a one-station store produces the same station list, total and
current-prices response as the coordinate-free request. -/
theorem c9_amended_zero_coordinate_skips_geo_witness :
    ((get_gas_stations 5
        ⟨[⟨"s1", "Pemex Norte", none, none, some "Monterrey", some "NL", 25, -100, true, true,
           true, 0, none, true⟩],
         [⟨"s1", "magna", 22, "user_report", 1, "validated", true, 0⟩], []⟩
        (some 0) (some 1) (some 25) none none none none 50 0).1.stations =
      (get_gas_stations 5
        ⟨[⟨"s1", "Pemex Norte", none, none, some "Monterrey", some "NL", 25, -100, true, true,
           true, 0, none, true⟩],
         [⟨"s1", "magna", 22, "user_report", 1, "validated", true, 0⟩], []⟩
        none none (some 25) none none none none 50 0).1.stations) ∧
    (prices_current_endpoint 5
        ⟨[⟨"s1", "Pemex Norte", none, none, some "Monterrey", some "NL", 25, -100, true, true,
           true, 0, none, true⟩],
         [⟨"s1", "magna", 22, "user_report", 1, "validated", true, 0⟩], []⟩
        none none none (some 0) (some 1) (some 25) "distance" 50 =
      prices_current_endpoint 5
        ⟨[⟨"s1", "Pemex Norte", none, none, some "Monterrey", some "NL", 25, -100, true, true,
           true, 0, none, true⟩],
         [⟨"s1", "magna", 22, "user_report", 1, "validated", true, 0⟩], []⟩
        none none none none none (some 25) "distance" 50) := by
  have h := c9_amended_zero_coordinate_skips_geo 5
    ⟨[⟨"s1", "Pemex Norte", none, none, some "Monterrey", some "NL", 25, -100, true, true,
       true, 0, none, true⟩],
     [⟨"s1", "magna", 22, "user_report", 1, "validated", true, 0⟩], []⟩
    none none none none (some 0) (some 1) (some 25) "distance" 50 0 50
    (Or.inl (by decide))
  exact ⟨h.1, h.2.2⟩

/-! ## Claim C6: the price statistics aggregator -/

theorem foldl_min_mem {α : Type} [LinearOrder α] :
    ∀ (l : List α) (a : α), l.foldl min a ∈ a :: l
  | [], a => by simp
  | b :: t, a => by
    have ih := foldl_min_mem t (min a b)
    rcases List.mem_cons.1 ih with h | h
    · rcases min_choice a b with hc | hc
      · exact List.mem_cons.2 (Or.inl (by simpa [hc] using h))
      · refine List.mem_cons.2 (Or.inr (List.mem_cons.2 (Or.inl ?_)))
        simpa [hc] using h
    · exact List.mem_cons.2 (Or.inr (List.mem_cons.2 (Or.inr h)))

theorem foldl_min_le {α : Type} [LinearOrder α] :
    ∀ (l : List α) (a : α), l.foldl min a ≤ a ∧ ∀ x ∈ l, l.foldl min a ≤ x
  | [], a => ⟨le_refl a, by simp⟩
  | b :: t, a => by
    have ih := foldl_min_le t (min a b)
    simp only [List.foldl_cons]
    refine ⟨le_trans ih.1 (min_le_left a b), ?_⟩
    intro x hx
    rcases List.mem_cons.1 hx with h | h
    · rw [h]; exact le_trans ih.1 (min_le_right a b)
    · exact ih.2 x h

theorem foldl_max_mem {α : Type} [LinearOrder α] :
    ∀ (l : List α) (a : α), l.foldl max a ∈ a :: l
  | [], a => by simp
  | b :: t, a => by
    have ih := foldl_max_mem t (max a b)
    rcases List.mem_cons.1 ih with h | h
    · rcases max_choice a b with hc | hc
      · exact List.mem_cons.2 (Or.inl (by simpa [hc] using h))
      · refine List.mem_cons.2 (Or.inr (List.mem_cons.2 (Or.inl ?_)))
        simpa [hc] using h
    · exact List.mem_cons.2 (Or.inr (List.mem_cons.2 (Or.inr h)))

theorem foldl_max_le {α : Type} [LinearOrder α] :
    ∀ (l : List α) (a : α), a ≤ l.foldl max a ∧ ∀ x ∈ l, x ≤ l.foldl max a
  | [], a => ⟨le_refl a, by simp⟩
  | b :: t, a => by
    have ih := foldl_max_le t (max a b)
    simp only [List.foldl_cons]
    refine ⟨le_trans (le_max_left a b) ih.1, ?_⟩
    intro x hx
    rcases List.mem_cons.1 hx with h | h
    · rw [h]; exact le_trans (le_max_right a b) ih.1
    · exact ih.2 x h

theorem rhe_intCast (n : ℤ) : rhe (n : ℚ) = n := by
  unfold rhe
  rw [Int.floor_intCast]
  norm_num

theorem round2_of_mul_eq (q : ℚ) (n : ℤ) (h : q * 100 = (n : ℚ)) :
    round2 q = (n : ℚ) / 100 := by
  unfold round2
  rw [h, rhe_intCast]

/-- C6: the statistics aggregator computes over exactly the current,
validated rows of the requested fuel type created in the trailing 7 days
(every aggregated price stems from such a row, and with no region filter the
aggregated list is exactly the prices of those rows); on a nonempty sample
it returns the sample size, the arithmetic mean rounded to 2 decimals, the
minimum and maximum at source precision and their rounded difference; and on
an empty sample it returns the error-dictionary empty-data signal (which the
endpoint maps to a 404) rather than raising. -/
theorem c6_statistics_aggregator (now : ℤ) (store : Store) (fuel_type : String)
    (region : Option String) :
    (statisticsPrices now store fuel_type region = [] →
      get_price_statistics now store fuel_type region =
        StatsResult.err "No hay datos de precios disponibles" ∧
      get_price_statistics_endpoint now store fuel_type region =
        Except.error ⟨404, "No hay datos de precios disponibles"⟩) ∧
    (∀ p ps, statisticsPrices now store fuel_type region = p :: ps →
      ∃ st, get_price_statistics now store fuel_type region = StatsResult.ok st ∧
        st.sample_size = (p :: ps).length ∧
        st.average = round2 ((p :: ps).sum / ((p :: ps).length : ℚ)) ∧
        st.minimum ∈ p :: ps ∧ (∀ x ∈ p :: ps, st.minimum ≤ x) ∧
        st.maximum ∈ p :: ps ∧ (∀ x ∈ p :: ps, x ≤ st.maximum) ∧
        st.range = round2 (st.maximum - st.minimum)) ∧
    (∀ q ∈ statisticsPrices now store fuel_type region, ∃ pr, pr ∈ store.prices ∧
      q = pr.price ∧ pr.fuel_type = lowerStr fuel_type ∧ pr.is_current = true ∧
      pr.validation_status = "validated" ∧ now - 604800 ≤ pr.created_at) ∧
    (truthyS region = false →
      statisticsPrices now store fuel_type region =
        (store.prices.filter (fun pr => pr.fuel_type == lowerStr fuel_type &&
          decide (now - 604800 ≤ pr.created_at) && pr.is_current &&
          pr.validation_status == "validated")).map (fun pr => pr.price)) := by
  refine ⟨?_, ?_, ?_, ?_⟩
  · intro h
    constructor
    · unfold get_price_statistics
      rw [h]
    · unfold get_price_statistics_endpoint get_price_statistics
      rw [h]
  · intro p ps h
    have hok : get_price_statistics now store fuel_type region = StatsResult.ok
        { fuel_type := fuel_type
          region := if truthyS region = true then region.getD "" else "nacional"
          sample_size := (p :: ps).length
          average := round2 ((p :: ps).sum / ((p :: ps).length : ℚ))
          minimum := ps.foldl min p
          maximum := ps.foldl max p
          range := round2 (ps.foldl max p - ps.foldl min p) } := by
      unfold get_price_statistics
      rw [h]
    refine ⟨_, hok, rfl, rfl, foldl_min_mem ps p, ?_, foldl_max_mem ps p, ?_, rfl⟩
    · intro x hx
      rcases List.mem_cons.1 hx with hxx | hxx
      · exact hxx ▸ (foldl_min_le ps p).1
      · exact (foldl_min_le ps p).2 x hxx
    · intro x hx
      rcases List.mem_cons.1 hx with hxx | hxx
      · exact hxx ▸ (foldl_max_le ps p).1
      · exact (foldl_max_le ps p).2 x hxx
  · intro q hq
    unfold statisticsPrices at hq
    by_cases hr : truthyS region = true
    · simp only [hr, if_pos] at hq
      obtain ⟨pr, hpr, hq2⟩ := List.mem_flatMap.1 hq
      obtain ⟨s, hs, hq3⟩ := List.mem_map.1 hq2
      have hm := List.mem_filter.1 hpr
      refine ⟨pr, hm.1, hq3.symm, ?_, ?_, ?_, ?_⟩ <;>
        · have := hm.2
          simp only [Bool.and_eq_true, beq_iff_eq, decide_eq_true_eq] at this
          tauto
    · rw [if_neg hr] at hq
      obtain ⟨pr, hpr, hq2⟩ := List.mem_map.1 hq
      have hm := List.mem_filter.1 hpr
      refine ⟨pr, hm.1, hq2.symm, ?_, ?_, ?_, ?_⟩ <;>
        · have := hm.2
          simp only [Bool.and_eq_true, beq_iff_eq, decide_eq_true_eq] at this
          tauto
  · intro hr
    unfold statisticsPrices
    rw [if_neg (by simpa using hr)]

/-- C6 witness: the claim's worked example — prices 20, 22 and 24 for fuel
type magna inside the trailing 7-day window yield sample size 3, average
22.0, minimum 20.0, maximum 24.0, range 4.0. -/
theorem c6_statistics_aggregator_witness :
    ∃ st, get_price_statistics 604800
        ⟨[], [⟨"s1", "magna", 20, "user_report", 1, "validated", true, 604800⟩,
              ⟨"s2", "magna", 22, "user_report", 1, "validated", true, 604800⟩,
              ⟨"s3", "magna", 24, "user_report", 1, "validated", true, 604800⟩], []⟩
        "magna" none = StatsResult.ok st ∧
      st.sample_size = 3 ∧ st.average = 22 ∧ st.minimum = 20 ∧ st.maximum = 24 ∧
      st.range = 4 := by
  have heval : statisticsPrices 604800
      ⟨[], [⟨"s1", "magna", 20, "user_report", 1, "validated", true, 604800⟩,
            ⟨"s2", "magna", 22, "user_report", 1, "validated", true, 604800⟩,
            ⟨"s3", "magna", 24, "user_report", 1, "validated", true, 604800⟩], []⟩
      "magna" none = 20 :: [22, 24] := by decide
  obtain ⟨st, hok, h1, h2, h3, h4, h5, h6, h7⟩ :=
    (c6_statistics_aggregator 604800
      ⟨[], [⟨"s1", "magna", 20, "user_report", 1, "validated", true, 604800⟩,
            ⟨"s2", "magna", 22, "user_report", 1, "validated", true, 604800⟩,
            ⟨"s3", "magna", 24, "user_report", 1, "validated", true, 604800⟩], []⟩
      "magna" none).2.1 20 [22, 24] heval
  have hmin : st.minimum = 20 := by
    have h20 := h4 20 (by norm_num)
    simp only [List.mem_cons, List.mem_singleton, List.not_mem_nil, or_false] at h3
    rcases h3 with hc | hc | hc
    · exact hc
    · rw [hc] at h20; norm_num at h20
    · rw [hc] at h20; norm_num at h20
  have hmax : st.maximum = 24 := by
    have h24 := h6 24 (by norm_num)
    simp only [List.mem_cons, List.mem_singleton, List.not_mem_nil, or_false] at h5
    rcases h5 with hc | hc | hc
    · rw [hc] at h24; norm_num at h24
    · rw [hc] at h24; norm_num at h24
    · exact hc
  refine ⟨st, hok, by simpa using h1, ?_, hmin, hmax, ?_⟩
  · have h66 : ((20 : ℚ) :: [22, 24]).sum / (((20 : ℚ) :: [22, 24]).length : ℚ) = 22 := by
      norm_num [List.sum_cons]
    rw [h2, h66, round2_of_mul_eq 22 2200 (by norm_num)]
    norm_num
  · rw [h7, hmin, hmax]
    rw [show (24 : ℚ) - 20 = 4 by norm_num]
    rw [round2_of_mul_eq 4 400 (by norm_num)]
    norm_num

/-! ## Claim C2: ingestion supersession and read-back -/

theorem lookup_price_of_all (Fk : String) (P : ℚ) :
    ∀ (acc : List (String × PriceInfo)),
      (∀ e ∈ acc, e.1 = Fk → e.2.price = P) →
      ∀ i, acc.lookup Fk = some i → i.price = P
  | [], _, i, h => by simp [List.lookup] at h
  | (k, v) :: t, hall, i, h => by
    by_cases hk : (Fk == k) = true
    · simp only [List.lookup, hk, Option.some.injEq] at h
      rw [← h]
      exact hall (k, v) (List.mem_cons_self _ _) (beq_iff_eq.1 hk).symm
    · simp only [List.lookup, hk] at h
      exact lookup_price_of_all Fk P t
        (fun e he hfk => hall e (List.mem_cons.2 (Or.inr he)) hfk) i h

theorem lookup_isSome_of_key (Fk : String) :
    ∀ (acc : List (String × PriceInfo)), (∃ e ∈ acc, e.1 = Fk) →
      ∃ i, acc.lookup Fk = some i
  | [], h => by simp at h
  | (k, v) :: t, h => by
    by_cases hk : (Fk == k) = true
    · exact ⟨v, by simp [List.lookup, hk]⟩
    · obtain ⟨e, he, hfk⟩ := h
      rcases List.mem_cons.1 he with rfl | he2
      · exact absurd (beq_iff_eq.2 hfk.symm) hk
      · obtain ⟨i, hi⟩ := lookup_isSome_of_key Fk t ⟨e, he2, hfk⟩
        exact ⟨i, by simp [List.lookup, hk, hi]⟩

theorem mem_collectFirstPerFuel (now : ℤ) (acc : List (String × PriceInfo))
    (p : PriceRecord) (e : String × PriceInfo) (he : e ∈ acc) :
    e ∈ collectFirstPerFuel now acc p := by
  unfold collectFirstPerFuel
  split
  · exact he
  · exact List.mem_append_left _ he

theorem collect_fold_key (now : ℤ) (Fk : String) :
    ∀ (L : List PriceRecord) (acc : List (String × PriceInfo)),
      ((∃ p ∈ L, p.fuel_type = Fk) ∨ ∃ e ∈ acc, e.1 = Fk) →
      ∃ e ∈ L.foldl (collectFirstPerFuel now) acc, e.1 = Fk
  | [], acc, h => by
    rcases h with h | h
    · simp at h
    · simpa using h
  | p :: t, acc, h => by
    simp only [List.foldl_cons]
    rcases h with h | h
    · obtain ⟨q, hq, hfk⟩ := h
      rcases List.mem_cons.1 hq with rfl | hq2
      · refine collect_fold_key now Fk t _ (Or.inr ?_)
        unfold collectFirstPerFuel
        split
        · next hany =>
          obtain ⟨e, he, hbeq⟩ := List.any_eq_true.1 hany
          exact ⟨e, he, by rw [beq_iff_eq.1 hbeq, hfk]⟩
        · exact ⟨(q.fuel_type, priceInfoOf now q), List.mem_append_right _ (by simp), hfk⟩
      · exact collect_fold_key now Fk t _ (Or.inl ⟨q, hq2, hfk⟩)
    · obtain ⟨e, he, hfk⟩ := h
      exact collect_fold_key now Fk t _
        (Or.inr ⟨e, mem_collectFirstPerFuel now acc p e he, hfk⟩)

theorem collect_fold_price (now : ℤ) (Fk : String) (P : ℚ) :
    ∀ (L : List PriceRecord) (acc : List (String × PriceInfo)),
      (∀ p ∈ L, p.fuel_type = Fk → p.price = P) →
      (∀ e ∈ acc, e.1 = Fk → e.2.price = P) →
      ∀ i, (L.foldl (collectFirstPerFuel now) acc).lookup Fk = some i → i.price = P
  | [], acc, _, hacc, i, h => lookup_price_of_all Fk P acc hacc i h
  | p :: t, acc, hall, hacc, i, h => by
    simp only [List.foldl_cons] at h
    refine collect_fold_price now Fk P t _
      (fun q hq => hall q (List.mem_cons.2 (Or.inr hq))) ?_ i h
    intro e he hfk
    unfold collectFirstPerFuel at he
    split at he
    · exact hacc e he hfk
    · rcases List.mem_append.1 he with he2 | he2
      · exact hacc e he2 hfk
      · have : e = (p.fuel_type, priceInfoOf now p) := by simpa using he2
        rw [this] at hfk ⊢
        exact hall p (List.mem_cons_self _ _) hfk

/-- C2: after a successful price report ingestion for station S, fuel F and
price P, every prior PriceRecord of (S, F) has been marked no longer
current (any (S, F) record still current in the new store carries exactly
price P, validated, created now), exactly one PriceRecord of (S, F) is
simultaneously current and validated, and the single-station current-prices
read returns exactly P for F. -/
theorem c2_ingestion_supersession (now : ℤ) (store : Store) (f : ReportForm) (ip : String) :
    (∀ p ∈ (create_price_report now store f ip).1.prices,
        p.gas_station_id = f.gas_station_id → p.fuel_type = lowerStr f.fuel_type →
        p.is_current = true →
        p.price = f.reported_price ∧ p.validation_status = "validated" ∧
          p.created_at = now) ∧
    ((create_price_report now store f ip).1.prices.countP (fun p =>
        p.gas_station_id == f.gas_station_id && p.fuel_type == lowerStr f.fuel_type &&
        currentValidated p) = 1) ∧
    (((get_current_prices now (create_price_report now store f ip).1
          f.gas_station_id).lookup (lowerStr f.fuel_type)).map (fun i => i.price) =
      some f.reported_price) := by
  have hprices : (create_price_report now store f ip).1.prices =
      store.prices.map (fun p =>
        if p.gas_station_id = f.gas_station_id ∧ p.fuel_type = lowerStr f.fuel_type then
          { p with is_current := false }
        else p) ++ [createFromUserReport now f] := rfl
  have hkey : ∀ p ∈ (create_price_report now store f ip).1.prices,
      p.gas_station_id = f.gas_station_id → p.fuel_type = lowerStr f.fuel_type →
      p.is_current = true →
      p.price = f.reported_price ∧ p.validation_status = "validated" ∧
        p.created_at = now := by
    intro p hp hS hF hc
    rw [hprices] at hp
    rcases List.mem_append.1 hp with hmem | hmem
    · obtain ⟨q, hq, hpe⟩ := List.mem_map.1 hmem
      by_cases hm : q.gas_station_id = f.gas_station_id ∧
          q.fuel_type = lowerStr f.fuel_type
      · rw [if_pos hm] at hpe
        rw [← hpe] at hc
        simp at hc
      · rw [if_neg hm] at hpe
        rw [← hpe] at hS hF
        exact absurd ⟨hS, hF⟩ hm
    · have : p = createFromUserReport now f := by simpa using hmem
      rw [this]
      exact ⟨rfl, rfl, rfl⟩
  refine ⟨hkey, ?_, ?_⟩
  · rw [hprices, List.countP_append]
    have h0 : (store.prices.map (fun p =>
        if p.gas_station_id = f.gas_station_id ∧ p.fuel_type = lowerStr f.fuel_type then
          { p with is_current := false }
        else p)).countP (fun p =>
        p.gas_station_id == f.gas_station_id && p.fuel_type == lowerStr f.fuel_type &&
        currentValidated p) = 0 := by
      rw [List.countP_eq_zero]
      intro p hp
      obtain ⟨q, hq, hpe⟩ := List.mem_map.1 hp
      by_cases hm : q.gas_station_id = f.gas_station_id ∧
          q.fuel_type = lowerStr f.fuel_type
      · rw [if_pos hm] at hpe
        rw [← hpe]
        simp [currentValidated]
      · rw [if_neg hm] at hpe
        rw [← hpe]
        intro hcontra
        simp only [Bool.and_eq_true, beq_iff_eq] at hcontra
        exact hm ⟨hcontra.1.1, hcontra.1.2⟩
    have h1 : ([createFromUserReport now f]).countP (fun p =>
        p.gas_station_id == f.gas_station_id && p.fuel_type == lowerStr f.fuel_type &&
        currentValidated p) = 1 := by
      simp [List.countP_cons, createFromUserReport, currentValidated]
    rw [h0, h1]
  · unfold get_current_prices
    have hmemL : createFromUserReport now f ∈
        sortB (fun a b => decide (b.created_at ≤ a.created_at))
          ((create_price_report now store f ip).1.prices.filter (fun p =>
            p.gas_station_id == f.gas_station_id && currentValidated p)) := by
      unfold sortB
      rw [List.mem_insertionSort]
      refine List.mem_filter.2 ⟨?_, ?_⟩
      · rw [hprices]
        exact List.mem_append_right _ (by simp)
      · simp [createFromUserReport, currentValidated]
    obtain ⟨e, he, hfk⟩ := collect_fold_key now (lowerStr f.fuel_type) _ []
      (Or.inl ⟨createFromUserReport now f, hmemL, rfl⟩)
    obtain ⟨i, hi⟩ := lookup_isSome_of_key (lowerStr f.fuel_type) _ ⟨e, he, hfk⟩
    have hp : i.price = f.reported_price := by
      refine collect_fold_price now (lowerStr f.fuel_type) f.reported_price _ []
        ?_ (by simp) i hi
      intro p hpL hpF
      unfold sortB at hpL
      rw [List.mem_insertionSort] at hpL
      have hm := List.mem_filter.1 hpL
      have hcond := hm.2
      simp only [Bool.and_eq_true, beq_iff_eq, currentValidated] at hcond
      exact (hkey p hm.1 hcond.1 hpF hcond.2.1).1
    rw [hi]
    simp [hp]

/-- C2 witness: ingesting price 22 for (s1, magna) over a store that already
holds a current validated magna price for s1 makes the subsequent
single-station read return exactly 22 for magna. -/
theorem c2_ingestion_supersession_witness :
    ((get_current_prices 100 (create_price_report 100
        ⟨[⟨"s1", "Pemex Norte", none, none, none, none, 25, -100, true, true, true, 0, none,
           true⟩],
         [⟨"s1", "magna", 18, "user_report", 1, "validated", true, 0⟩], []⟩
        ⟨"s1", "magna", 22, none, none, none⟩ "1.2.3.4").1
        "s1").lookup (lowerStr "magna")).map (fun i => i.price) = some 22 :=
  (c2_ingestion_supersession 100
    ⟨[⟨"s1", "Pemex Norte", none, none, none, none, 25, -100, true, true, true, 0, none,
       true⟩],
     [⟨"s1", "magna", 18, "user_report", 1, "validated", true, 0⟩], []⟩
    ⟨"s1", "magna", 22, none, none, none⟩ "1.2.3.4").2.2

/-! ## Lemmas on the bulk grouping loop -/

theorem setPrice_none (now : ℤ) (v : StationView) : setPrice now none v = v := rfl

theorem setPrice_some (now : ℤ) (p : PriceRecord) (v : StationView) :
    setPrice now (some p) v =
      if p.fuel_type ≠ "" ∧ p.price ≠ 0 then
        { v with current_prices := upsert p.fuel_type (priceInfoOf now p) v.current_prices }
      else v := rfl

theorem setPrice_id (now : ℤ) (pr : Option PriceRecord) (v : StationView) :
    (setPrice now pr v).id = v.id := by
  cases pr with
  | none => rfl
  | some p =>
    rw [setPrice_some]
    by_cases hc : p.fuel_type ≠ "" ∧ p.price ≠ 0
    · rw [if_pos hc]
    · rw [if_neg hc]

theorem addRow_ids (now : ℤ) (acc : List StationView) (r : Station × Option PriceRecord) :
    viewIds (addRow now acc r) =
      if acc.any (fun v => v.id == r.1.id) then viewIds acc
      else viewIds acc ++ [r.1.id] := by
  unfold addRow
  split
  · unfold viewIds
    rw [List.map_map]
    refine List.map_congr_left ?_
    intro v _
    simp only [Function.comp]
    by_cases hv : (v.id == r.1.id) = true
    · rw [if_pos hv, setPrice_id]
    · rw [if_neg hv]
  · unfold viewIds
    rw [List.map_append]
    simp [setPrice_id, viewOfStation]

theorem mem_viewIds_addRow (now : ℤ) (acc : List StationView)
    (r : Station × Option PriceRecord) (x : String) (h : x ∈ viewIds acc) :
    x ∈ viewIds (addRow now acc r) := by
  rw [addRow_ids]
  split
  · exact h
  · exact List.mem_append_left _ h

theorem self_mem_viewIds_addRow (now : ℤ) (acc : List StationView)
    (r : Station × Option PriceRecord) :
    r.1.id ∈ viewIds (addRow now acc r) := by
  rw [addRow_ids]
  split
  · next h =>
    obtain ⟨v, hv, hbeq⟩ := List.any_eq_true.1 h
    rw [← beq_iff_eq.1 hbeq]
    exact List.mem_map.2 ⟨v, hv, rfl⟩
  · exact List.mem_append_right _ (by simp)

theorem mem_viewIds_foldl (now : ℤ) (x : String) :
    ∀ (rows : List (Station × Option PriceRecord)) (acc : List StationView),
      x ∈ viewIds acc → x ∈ viewIds (rows.foldl (addRow now) acc)
  | [], _, h => h
  | r :: t, acc, h => by
    simp only [List.foldl_cons]
    exact mem_viewIds_foldl now x t _ (mem_viewIds_addRow now acc r x h)

theorem row_id_mem_foldl (now : ℤ) (r : Station × Option PriceRecord) :
    ∀ (rows : List (Station × Option PriceRecord)) (acc : List StationView),
      r ∈ rows → r.1.id ∈ viewIds (rows.foldl (addRow now) acc)
  | r2 :: t, acc, h => by
    simp only [List.foldl_cons]
    rcases List.mem_cons.1 h with rfl | h2
    · exact mem_viewIds_foldl now r.1.id t _ (self_mem_viewIds_addRow now acc r)
    · exact row_id_mem_foldl now r t _ h2

theorem not_mem_viewIds_foldl (now : ℤ) (x : String) :
    ∀ (rows : List (Station × Option PriceRecord)) (acc : List StationView),
      (∀ r ∈ rows, r.1.id ≠ x) → x ∉ viewIds acc →
      x ∉ viewIds (rows.foldl (addRow now) acc)
  | [], _, _, hacc => hacc
  | r :: t, acc, hall, hacc => by
    simp only [List.foldl_cons]
    refine not_mem_viewIds_foldl now x t _ (fun r2 h2 => hall r2 (List.mem_cons.2 (Or.inr h2))) ?_
    rw [addRow_ids]
    split
    · exact hacc
    · intro hmem
      rcases List.mem_append.1 hmem with h | h
      · exact hacc h
      · have hx : x = r.1.id := by simpa using h
        exact hall r (List.mem_cons_self _ _) hx.symm

theorem nodup_viewIds_foldl (now : ℤ) :
    ∀ (rows : List (Station × Option PriceRecord)) (acc : List StationView),
      (viewIds acc).Nodup → (viewIds (rows.foldl (addRow now) acc)).Nodup
  | [], _, h => h
  | r :: t, acc, h => by
    simp only [List.foldl_cons]
    refine nodup_viewIds_foldl now t _ ?_
    rw [addRow_ids]
    split
    · exact h
    · next hany =>
      rw [List.nodup_append]
      refine ⟨h, List.nodup_singleton _, ?_⟩
      intro a ha hb
      rw [List.mem_singleton] at hb
      subst hb
      obtain ⟨v, hv, hvid⟩ := List.mem_map.1 ha
      exact hany (List.any_eq_true.2 ⟨v, hv, beq_iff_eq.2 hvid⟩)

theorem viewIds_foldl_subset (now : ℤ) (x : String) :
    ∀ (rows : List (Station × Option PriceRecord)) (acc : List StationView),
      x ∈ viewIds (rows.foldl (addRow now) acc) →
      x ∈ viewIds acc ∨ ∃ r ∈ rows, r.1.id = x
  | [], _, h => Or.inl h
  | r :: t, acc, h => by
    simp only [List.foldl_cons] at h
    rcases viewIds_foldl_subset now x t _ h with h2 | h2
    · rw [addRow_ids] at h2
      split at h2
      · exact Or.inl h2
      · rcases List.mem_append.1 h2 with h3 | h3
        · exact Or.inl h3
        · exact Or.inr ⟨r, List.mem_cons_self _ _, by simpa using (List.mem_singleton.1 h3).symm⟩
    · obtain ⟨r2, hr2, hid⟩ := h2
      exact Or.inr ⟨r2, List.mem_cons.2 (Or.inr hr2), hid⟩

theorem mem_upsert (k : String) (i : PriceInfo) (e : String × PriceInfo) :
    ∀ (l : List (String × PriceInfo)), e ∈ upsert k i l → e = (k, i) ∨ e ∈ l
  | [], h => Or.inl (by simpa [upsert] using h)
  | (k0, i0) :: t, h => by
    unfold upsert at h
    split at h
    · rcases List.mem_cons.1 h with h2 | h2
      · exact Or.inl h2
      · exact Or.inr (List.mem_cons.2 (Or.inr h2))
    · rcases List.mem_cons.1 h with h2 | h2
      · exact Or.inr (List.mem_cons.2 (Or.inl h2))
      · rcases mem_upsert k i e t h2 with h3 | h3
        · exact Or.inl h3
        · exact Or.inr (List.mem_cons.2 (Or.inr h3))

theorem foldl_empty_prices (now : ℤ) (sid : String) :
    ∀ (rows : List (Station × Option PriceRecord)) (acc : List StationView),
      (∀ r ∈ rows, r.1.id = sid → r.2 = none) →
      (∀ v ∈ acc, v.id = sid → v.current_prices = []) →
      ∀ v ∈ rows.foldl (addRow now) acc, v.id = sid → v.current_prices = []
  | [], _, _, hacc, v, hv, hid => hacc v hv hid
  | r :: t, acc, hall, hacc, v, hv, hid => by
    simp only [List.foldl_cons] at hv
    refine foldl_empty_prices now sid t _
      (fun r2 h2 => hall r2 (List.mem_cons.2 (Or.inr h2))) ?_ v hv hid
    intro w hw hwid
    unfold addRow at hw
    split at hw
    · obtain ⟨u, hu, hue⟩ := List.mem_map.1 hw
      by_cases hb : (u.id == r.1.id) = true
      · rw [if_pos hb] at hue
        have hrid : r.1.id = sid := by
          rw [← hue] at hwid
          rw [setPrice_id] at hwid
          rw [← beq_iff_eq.1 hb, hwid]
        have h2 : r.2 = none := hall r (List.mem_cons_self _ _) hrid
        rw [← hue, h2, setPrice_none]
        exact hacc u hu (by rw [beq_iff_eq.1 hb, hrid])
      · rw [if_neg hb] at hue
        subst hue
        exact hacc u hu hwid
    · rcases List.mem_append.1 hw with h2 | h2
      · exact hacc w h2 hwid
      · have hwe : w = setPrice now r.2 (viewOfStation r.1) := by simpa using h2
        have hrid : r.1.id = sid := by
          rw [hwe, setPrice_id] at hwid
          exact hwid
        have h3 : r.2 = none := hall r (List.mem_cons_self _ _) hrid
        rw [hwe, h3, setPrice_none]
        rfl

theorem foldl_prices_sound (now : ℤ) (Q : String → String × PriceInfo → Prop) :
    ∀ (rows : List (Station × Option PriceRecord)) (acc : List StationView),
      (∀ r ∈ rows, ∀ p, r.2 = some p → p.fuel_type ≠ "" → p.price ≠ 0 →
        Q r.1.id (p.fuel_type, priceInfoOf now p)) →
      (∀ v ∈ acc, ∀ e ∈ v.current_prices, Q v.id e) →
      ∀ v ∈ rows.foldl (addRow now) acc, ∀ e ∈ v.current_prices, Q v.id e
  | [], _, _, hacc, v, hv, e, he => hacc v hv e he
  | r :: t, acc, hall, hacc, v, hv, e, he => by
    simp only [List.foldl_cons] at hv
    refine foldl_prices_sound now Q t _
      (fun r2 h2 => hall r2 (List.mem_cons.2 (Or.inr h2))) ?_ v hv e he
    intro w hw e2 he2
    have hset : ∀ (u : StationView), (∀ e3 ∈ u.current_prices, Q u.id e3) →
        u.id = r.1.id → ∀ e3 ∈ (setPrice now r.2 u).current_prices, Q (setPrice now r.2 u).id e3 := by
      intro u hu hid e3 he3
      rw [setPrice_id, hid]
      cases hr2 : r.2 with
      | none =>
        rw [hr2, setPrice_none] at he3
        rw [← hid]
        exact hu e3 he3
      | some p =>
        rw [hr2, setPrice_some] at he3
        by_cases hc : p.fuel_type ≠ "" ∧ p.price ≠ 0
        · rw [if_pos hc] at he3
          rcases mem_upsert _ _ _ _ he3 with h3 | h3
          · rw [h3]
            exact hall r (List.mem_cons_self _ _) p hr2 hc.1 hc.2
          · rw [← hid]
            exact hu e3 h3
        · rw [if_neg hc] at he3
          rw [← hid]
          exact hu e3 he3
    unfold addRow at hw
    split at hw
    · obtain ⟨u, hu, hue⟩ := List.mem_map.1 hw
      by_cases hb : (u.id == r.1.id) = true
      · rw [if_pos hb] at hue
        rw [← hue]
        exact hset u (hacc u hu) (beq_iff_eq.1 hb) e2 (hue ▸ he2)
      · rw [if_neg hb] at hue
        exact hacc w (hue ▸ hu) e2 he2
    · rcases List.mem_append.1 hw with h2 | h2
      · exact hacc w h2 e2 he2
      · have hwe : w = setPrice now r.2 (viewOfStation r.1) := by simpa using h2
        rw [hwe] at he2 ⊢
        exact hset (viewOfStation r.1) (by intro e3 he3; simp [viewOfStation] at he3)
          rfl e2 he2

theorem exists_of_lookup (k : String) (i : PriceInfo) :
    ∀ (l : List (String × PriceInfo)), l.lookup k = some i → ∃ e ∈ l, e.1 = k ∧ e.2 = i
  | [], h => by simp [List.lookup] at h
  | (k0, i0) :: t, h => by
    by_cases hk : (k == k0) = true
    · simp only [List.lookup, hk, Option.some.injEq] at h
      exact ⟨(k0, i0), List.mem_cons_self _ _, (beq_iff_eq.1 hk).symm, h⟩
    · simp only [List.lookup, hk] at h
      obtain ⟨e, he, hp⟩ := exists_of_lookup k i t h
      exact ⟨e, List.mem_cons.2 (Or.inr he), hp⟩

theorem stationPriceRows_row (store : Store) (s : Station)
    (r : Station × Option PriceRecord) (h : r ∈ stationPriceRows store s) :
    r.1 = s ∧ (r.2 = none ∨ ∃ p, r.2 = some p ∧ p ∈ store.prices ∧
      p.gas_station_id = s.id ∧ currentValidated p = true) := by
  unfold stationPriceRows at h
  split at h
  · have : r = (s, none) := by simpa using h
    rw [this]
    exact ⟨rfl, Or.inl rfl⟩
  · obtain ⟨p, hp, hpr⟩ := List.mem_map.1 h
    unfold sortB at hp
    rw [List.mem_insertionSort] at hp
    have hm := List.mem_filter.1 hp
    have hcond := hm.2
    simp only [Bool.and_eq_true, beq_iff_eq] at hcond
    rw [← hpr]
    exact ⟨rfl, Or.inr ⟨p, rfl, hm.1, hcond.1, hcond.2⟩⟩

theorem bulkRowsAll_mem (store : Store) (station_ids : Option (List String))
    (fuel_type : Option String) (r : Station × Option PriceRecord)
    (h : r ∈ bulkRowsAll store station_ids fuel_type) :
    ∃ s ∈ store.stations, s.is_active = true ∧ r ∈ stationPriceRows store s := by
  unfold bulkRowsAll at h
  have h2 : r ∈ (sortB (fun a b => strLe a.name.data b.name.data)
      (bulkCandidates store station_ids)).flatMap (stationPriceRows store) := by
    split at h
    · exact (List.mem_filter.1 h).1
    · exact h
  obtain ⟨s, hs, hr⟩ := List.mem_flatMap.1 h2
  unfold sortB at hs
  rw [List.mem_insertionSort] at hs
  unfold bulkCandidates at hs
  have hs2 : s ∈ store.stations.filter (fun s => s.is_active) := by
    split at hs
    · exact (List.mem_filter.1 hs).1
    · exact hs
  have hm := List.mem_filter.1 hs2
  exact ⟨s, hm.1, by simpa using hm.2, hr⟩

/-! ## Claim C10: zero prices are never surfaced by the bulk read -/

/-- C10: in every bulk station query, a current validated PriceRecord whose
price equals 0 is omitted from its station's `current_prices` mapping (the
row loop keeps an entry only when both fuel type and price are truthy): if
every current validated record of (S, F) has price 0, no returned view for S
carries the key F — even though the report submission interface accepts
`reported_price = 0` (`Form(..., ge=0)`). -/
theorem c10_zero_price_not_surfaced (now : ℤ) (store : Store)
    (station_ids : Option (List String)) (fuel_type : Option String) (limit : ℕ)
    (S F : String)
    (h : ∀ p ∈ store.prices, p.gas_station_id = S → p.fuel_type = F →
      currentValidated p = true → p.price = 0) :
    (∀ v ∈ (get_gas_stations_with_prices_bulk now store station_ids fuel_type limit).1,
      v.id = S → v.current_prices.lookup F = none) ∧
    reportedPriceAccepted 0 = true := by
  refine ⟨?_, by decide⟩
  intro v hv hid
  have hsound : ∀ e ∈ v.current_prices, ∃ p, p ∈ store.prices ∧
      p.gas_station_id = v.id ∧ currentValidated p = true ∧ p.fuel_type = e.1 ∧
      p.price ≠ 0 := by
    have hv2 : v ∈ groupStations now
        ((bulkRowsAll store station_ids fuel_type).take (limit * 3)) :=
      List.mem_of_mem_take hv
    refine foldl_prices_sound now
      (fun sid e => ∃ p, p ∈ store.prices ∧ p.gas_station_id = sid ∧
        currentValidated p = true ∧ p.fuel_type = e.1 ∧ p.price ≠ 0)
      _ [] ?_ (by simp) v hv2
    intro r hr p hp hfuel hprice
    obtain ⟨s, _, _, hrow⟩ := bulkRowsAll_mem store station_ids fuel_type r
      (List.mem_of_mem_take hr)
    obtain ⟨hr1, hr2⟩ := stationPriceRows_row store s r hrow
    rcases hr2 with h2 | ⟨p2, hp2, hp3, hp4, hp5⟩
    · rw [h2] at hp
      exact absurd hp (by simp)
    · rw [hp] at hp2
      have : p2 = p := by simpa using hp2.symm
      subst this
      exact ⟨p2, hp3, by rw [hr1, hp4], hp5, rfl, hprice⟩
  cases hlk : v.current_prices.lookup F with
  | none => rfl
  | some i =>
    obtain ⟨e, he, hek, _⟩ := exists_of_lookup F i _ hlk
    obtain ⟨p, hp1, hp2, hp3, hp4, hp5⟩ := hsound e he
    exact absurd (h p hp1 (by rw [hp2, hid]) (by rw [hp4, hek]) hp3) hp5

/-- C10 witness: a store holding exactly one current validated magna record
with price 0 for station s1; the bulk query returns no magna entry for s1,
while the submission interface accepts a reported price of 0. -/
theorem c10_zero_price_not_surfaced_witness :
    (∀ v ∈ (get_gas_stations_with_prices_bulk 5
        ⟨[⟨"s1", "Pemex Norte", none, none, none, none, 25, -100, true, true, true, 0, none,
           true⟩],
         [⟨"s1", "magna", 0, "user_report", 1, "validated", true, 0⟩], []⟩
        none none 50).1,
      v.id = "s1" → v.current_prices.lookup "magna" = none) ∧
    reportedPriceAccepted 0 = true :=
  c10_zero_price_not_surfaced 5
    ⟨[⟨"s1", "Pemex Norte", none, none, none, none, 25, -100, true, true, true, 0, none,
       true⟩],
     [⟨"s1", "magna", 0, "user_report", 1, "validated", true, 0⟩], []⟩
    none none 50 "s1" "magna" (by decide)

/-! ## Claim C4: priceless stations in filtered and unfiltered queries -/

/-- C4 counterexample: the claim says a station with no current validated
price for the filtered fuel type is excluded from fuel-type-filtered
results; but a station with no current validated prices at all is INCLUDED
in the magna-filtered result (with an empty mapping), because the LEFT-JOIN
NULL row passes the `fuel_type = f OR fuel_type IS NULL` filter. -/
theorem c4_counterexample_priceless_station_included :
    (get_gas_stations_with_prices_bulk 0
        ⟨[⟨"s1", "Pemex Norte", none, none, none, none, 25, -100, true, true, true, 0, none,
           true⟩], [], []⟩
        none (some "magna") 100).1.map (fun v => (v.id, v.current_prices)) =
      [("s1", [])] := by
  decide

/-- C4 amended: under a fuel_type filter, a station that HAS some current
validated price but none for that fuel type is excluded; a station with NO
current validated prices at all is included — with an empty current_prices
mapping — both in filtered and in unfiltered queries (whenever the bulk
query's row and station caps are not exceeded). -/
theorem c4_amended_fuel_filter_exclusion (now : ℤ) (store : Store) (limit : ℕ)
    (S : Station) (hnd : (store.stations.map (fun s => s.id)).Nodup)
    (hS : S ∈ store.stations) (hact : S.is_active = true) :
    (∀ fl : String, fl ≠ "" →
      (∃ p ∈ store.prices, p.gas_station_id = S.id ∧ currentValidated p = true) →
      (∀ p ∈ store.prices, p.gas_station_id = S.id → currentValidated p = true →
        p.fuel_type ≠ lowerStr fl) →
      S.id ∉ viewIds (get_gas_stations_with_prices_bulk now store none (some fl) limit).1) ∧
    (∀ fopt : Option String,
      (∀ p ∈ store.prices, p.gas_station_id = S.id → currentValidated p = false) →
      store.stations.length ≤ limit →
      (bulkRowsAll store none fopt).length ≤ limit * 3 →
      S.id ∈ viewIds (get_gas_stations_with_prices_bulk now store none fopt limit).1 ∧
      ∀ v ∈ (get_gas_stations_with_prices_bulk now store none fopt limit).1,
        v.id = S.id → v.current_prices = []) := by
  constructor
  · intro fl hfl hex hnofuel
    have htr : truthyS (some fl) = true := by simp [truthyS, hfl]
    have hrows : ∀ r ∈ (bulkRowsAll store none (some fl)).take (limit * 3),
        r.1.id ≠ S.id := by
      intro r hr hideq
      have hrb := List.mem_of_mem_take hr
      unfold bulkRowsAll at hrb
      rw [if_pos htr] at hrb
      have hm := List.mem_filter.1 hrb
      obtain ⟨s, hs, hrow⟩ := List.mem_flatMap.1 hm.1
      have hs2 : s ∈ store.stations.filter (fun s => s.is_active) := by
        unfold sortB at hs
        rw [List.mem_insertionSort] at hs
        unfold bulkCandidates at hs
        rw [if_neg (by simp [truthyL])] at hs
        exact hs
      obtain ⟨hr1, _⟩ := stationPriceRows_row store s r hrow
      have hsid : s.id = S.id := by rw [← hr1]; exact hideq
      have hseq : s = S :=
        List.inj_on_of_nodup_map hnd ((List.mem_filter.1 hs2).1) hS hsid
      rw [hseq] at hrow
      have hfne : store.prices.filter
          (fun p => p.gas_station_id == S.id && currentValidated p) ≠ [] := by
        obtain ⟨p, hp, hp1, hp2⟩ := hex
        intro hnil
        have hmem : p ∈ store.prices.filter
            (fun p => p.gas_station_id == S.id && currentValidated p) :=
          List.mem_filter.2 ⟨hp, by simp [hp1, hp2]⟩
        rw [hnil] at hmem
        simp at hmem
      unfold stationPriceRows at hrow
      rw [if_neg (fun hc => hfne (by simpa using hc))] at hrow
      obtain ⟨p, hp, hpr⟩ := List.mem_map.1 hrow
      unfold sortB at hp
      rw [List.mem_insertionSort] at hp
      have hpm := List.mem_filter.1 hp
      have hcond : p.gas_station_id = S.id ∧ currentValidated p = true := by
        have := hpm.2
        simp only [Bool.and_eq_true, beq_iff_eq] at this
        exact ⟨this.1, this.2⟩
      have hnf := hnofuel p hpm.1 hcond.1 hcond.2
      have hpred := hm.2
      rw [← hpr] at hpred
      simp only [Option.getD_some] at hpred
      exact hnf (beq_iff_eq.1 hpred)
    intro hmem
    obtain ⟨v, hv, hvid⟩ := List.mem_map.1 hmem
    have hv2 : v ∈ groupStations now ((bulkRowsAll store none (some fl)).take (limit * 3)) :=
      List.mem_of_mem_take hv
    exact not_mem_viewIds_foldl now S.id _ [] hrows (by simp [viewIds])
      (List.mem_map.2 ⟨v, hv2, hvid⟩)
  · intro fopt hnoprices hlim hrows3
    have htake : (bulkRowsAll store none fopt).take (limit * 3) =
        bulkRowsAll store none fopt := List.take_of_length_le hrows3
    have hfilterempty : store.prices.filter
        (fun p => p.gas_station_id == S.id && currentValidated p) = [] := by
      rw [List.filter_eq_nil_iff]
      intro p hp hcond
      simp only [Bool.and_eq_true, beq_iff_eq] at hcond
      rw [hnoprices p hp hcond.1] at hcond
      exact absurd hcond.2 (by simp)
    have hrowS : stationPriceRows store S = [(S, none)] := by
      unfold stationPriceRows
      rw [hfilterempty]
      rfl
    have hSsort : S ∈ sortB (fun a b => strLe a.name.data b.name.data)
        (bulkCandidates store none) := by
      unfold sortB
      rw [List.mem_insertionSort]
      unfold bulkCandidates
      rw [if_neg (by simp [truthyL])]
      exact List.mem_filter.2 ⟨hS, by simp [hact]⟩
    have hrmem : (S, none) ∈ bulkRowsAll store none fopt := by
      unfold bulkRowsAll
      split
      · refine List.mem_filter.2 ⟨?_, rfl⟩
        exact List.mem_flatMap.2 ⟨S, hSsort, by rw [hrowS]; simp⟩
      · exact List.mem_flatMap.2 ⟨S, hSsort, by rw [hrowS]; simp⟩
    have hids : ∀ r ∈ bulkRowsAll store none fopt, r.1.id = S.id → r.2 = none := by
      intro r hr hid
      obtain ⟨s, hsmem, _, hrow⟩ := bulkRowsAll_mem store none fopt r hr
      obtain ⟨hr1, _⟩ := stationPriceRows_row store s r hrow
      have hseq : s = S :=
        List.inj_on_of_nodup_map hnd hsmem hS (by rw [← hr1]; exact hid)
      rw [hseq, hrowS] at hrow
      have : r = (S, none) := by simpa using hrow
      rw [this]
    have hgrouplen : (groupStations now
        ((bulkRowsAll store none fopt).take (limit * 3))).length ≤ limit := by
      rw [htake]
      have hnd2 : (viewIds (groupStations now (bulkRowsAll store none fopt))).Nodup :=
        nodup_viewIds_foldl now _ [] (by simp [viewIds])
      have hsub : viewIds (groupStations now (bulkRowsAll store none fopt)) ⊆
          store.stations.map (fun s => s.id) := by
        intro x hx
        rcases viewIds_foldl_subset now x _ [] hx with h | ⟨r, hr, hrid⟩
        · simp [viewIds] at h
        · obtain ⟨s, hsmem, _, hrow⟩ := bulkRowsAll_mem store none fopt r hr
          obtain ⟨hr1, _⟩ := stationPriceRows_row store s r hrow
          refine List.mem_map.2 ⟨s, hsmem, ?_⟩
          rw [← hrid, hr1]
      have hle := (hnd2.subperm hsub).length_le
      have h1 : (viewIds (groupStations now (bulkRowsAll store none fopt))).length =
          (groupStations now (bulkRowsAll store none fopt)).length := by
        simp [viewIds]
      have h2 : (store.stations.map (fun s => s.id)).length = store.stations.length := by
        simp
      rw [h1, h2] at hle
      exact le_trans hle hlim
    have hresult : (get_gas_stations_with_prices_bulk now store none fopt limit).1 =
        groupStations now ((bulkRowsAll store none fopt).take (limit * 3)) := by
      show (groupStations now ((bulkRowsAll store none fopt).take (limit * 3))).take limit = _
      exact List.take_of_length_le hgrouplen
    constructor
    · rw [hresult, htake]
      exact row_id_mem_foldl now (S, none) _ [] hrmem
    · intro v hv hid
      rw [hresult, htake] at hv
      exact foldl_empty_prices now S.id _ [] hids (by simp) v hv hid

/-- C4 witness: under the magna filter, station a — which has a current
validated premium price but no magna price — is excluded, while station b —
which has no current validated prices at all — is included with an empty
mapping. -/
theorem c4_amended_fuel_filter_exclusion_witness :
    ("a" : String) ∉ viewIds (get_gas_stations_with_prices_bulk 0
        ⟨[⟨"a", "Pemex A", none, none, none, none, 25, -100, true, true, true, 0, none, true⟩,
          ⟨"b", "Pemex B", none, none, none, none, 26, -101, true, true, true, 0, none, true⟩],
         [⟨"a", "premium", 24, "user_report", 1, "validated", true, 0⟩], []⟩
        none (some "magna") 50).1 ∧
    ("b" : String) ∈ viewIds (get_gas_stations_with_prices_bulk 0
        ⟨[⟨"a", "Pemex A", none, none, none, none, 25, -100, true, true, true, 0, none, true⟩,
          ⟨"b", "Pemex B", none, none, none, none, 26, -101, true, true, true, 0, none, true⟩],
         [⟨"a", "premium", 24, "user_report", 1, "validated", true, 0⟩], []⟩
        none (some "magna") 50).1 ∧
    ∀ v ∈ (get_gas_stations_with_prices_bulk 0
        ⟨[⟨"a", "Pemex A", none, none, none, none, 25, -100, true, true, true, 0, none, true⟩,
          ⟨"b", "Pemex B", none, none, none, none, 26, -101, true, true, true, 0, none, true⟩],
         [⟨"a", "premium", 24, "user_report", 1, "validated", true, 0⟩], []⟩
        none (some "magna") 50).1, v.id = "b" → v.current_prices = [] := by
  have hA := (c4_amended_fuel_filter_exclusion 0
    ⟨[⟨"a", "Pemex A", none, none, none, none, 25, -100, true, true, true, 0, none, true⟩,
      ⟨"b", "Pemex B", none, none, none, none, 26, -101, true, true, true, 0, none, true⟩],
     [⟨"a", "premium", 24, "user_report", 1, "validated", true, 0⟩], []⟩
    50 ⟨"a", "Pemex A", none, none, none, none, 25, -100, true, true, true, 0, none, true⟩
    (by decide) (by decide) (by decide)).1 "magna" (by decide)
    ⟨⟨"a", "premium", 24, "user_report", 1, "validated", true, 0⟩, by decide, by decide,
     by decide⟩
    (by decide)
  have hB := (c4_amended_fuel_filter_exclusion 0
    ⟨[⟨"a", "Pemex A", none, none, none, none, 25, -100, true, true, true, 0, none, true⟩,
      ⟨"b", "Pemex B", none, none, none, none, 26, -101, true, true, true, 0, none, true⟩],
     [⟨"a", "premium", 24, "user_report", 1, "validated", true, 0⟩], []⟩
    50 ⟨"b", "Pemex B", none, none, none, none, 26, -101, true, true, true, 0, none, true⟩
    (by decide) (by decide) (by decide)).2 (some "magna") (by decide) (by decide)
    (by decide)
  exact ⟨hA, hB.1, hB.2⟩

/-! ## Claim C3: order of filtering, sorting and pagination -/

theorem floorSqrtQ_natCast (n : ℕ) : floorSqrtQ (n : ℚ) = isqrt n := by
  unfold floorSqrtQ
  rw [Rat.num_natCast, Rat.den_natCast]
  simp

theorem roundDist2_eval (s : ℚ) (t k : ℕ) (hst : 123210000 * s = (t : ℚ))
    (hk : isqrt t = k) (hlt : 4 * ((t : ℕ) : ℚ) < ((2 * k + 1 : ℕ) : ℚ) ^ 2) :
    roundDist2 s = (k : ℚ) / 100 := by
  simp only [roundDist2, hst, floorSqrtQ_natCast, hk]
  rw [if_pos hlt]
  push_cast
  ring

set_option maxRecDepth 8000 in
/-- C3 counterexample: the claim says the listing pipeline filters, then
sorts the filtered sequence by distance ascending, and only then slices
`[offset : offset + limit]` — so limit 2, offset 1 over 5 filtered stations
must return the items at index 1 and 2 of the filtered-and-sorted sequence
(here d and c).  The endpoint instead slices before sorting (and its bulk
feed is itself capped at `limit` stations in name order), returning just b. -/
theorem c3_counterexample_slice_before_sort :
    ((get_gas_stations 0
        ⟨[⟨"c", "c", none, none, none, none, 103 / 100, 1, true, true, true, 0, none, true⟩,
          ⟨"a", "a", none, none, none, none, 21 / 20, 1, true, true, true, 0, none, true⟩,
          ⟨"e", "e", none, none, none, none, 101 / 100, 1, true, true, true, 0, none, true⟩,
          ⟨"b", "b", none, none, none, none, 26 / 25, 1, true, true, true, 0, none, true⟩,
          ⟨"d", "d", none, none, none, none, 51 / 50, 1, true, true, true, 0, none, true⟩],
         [], []⟩
        (some 1) (some 1) (some 25) none none none none 2 1).1.stations.map
      (fun v => v.id) = ["b"]) ∧
    spec_filter_sort_slice
        ⟨[⟨"c", "c", none, none, none, none, 103 / 100, 1, true, true, true, 0, none, true⟩,
          ⟨"a", "a", none, none, none, none, 21 / 20, 1, true, true, true, 0, none, true⟩,
          ⟨"e", "e", none, none, none, none, 101 / 100, 1, true, true, true, 0, none, true⟩,
          ⟨"b", "b", none, none, none, none, 26 / 25, 1, true, true, true, 0, none, true⟩,
          ⟨"d", "d", none, none, none, none, 51 / 50, 1, true, true, true, 0, none, true⟩],
         [], []⟩
        (some 1) (some 1) (some 25) none none none 2 1 = ["d", "c"] ∧
    (["b"] : List String) ≠ ["d", "c"] := by
  have hb : (get_gas_stations_with_prices_bulk 0
      ⟨[⟨"c", "c", none, none, none, none, 103 / 100, 1, true, true, true, 0, none, true⟩,
        ⟨"a", "a", none, none, none, none, 21 / 20, 1, true, true, true, 0, none, true⟩,
        ⟨"e", "e", none, none, none, none, 101 / 100, 1, true, true, true, 0, none, true⟩,
        ⟨"b", "b", none, none, none, none, 26 / 25, 1, true, true, true, 0, none, true⟩,
        ⟨"d", "d", none, none, none, none, 51 / 50, 1, true, true, true, 0, none, true⟩],
       [], []⟩
      none none 2).1 =
      [⟨"a", "a", none, none, none, none, 21 / 20, 1, ⟨true, true, true⟩, [], none⟩,
       ⟨"b", "b", none, none, none, none, 26 / 25, 1, ⟨true, true, true⟩, [], none⟩] := rfl
  have hr5 : roundDist2 (distSqQ 1 1 (21 / 20) 1) = (111 : ℚ) / 20 := by
    rw [show distSqQ 1 1 (21 / 20) 1 = 1 / 400 by unfold distSqQ; norm_num]
    rw [roundDist2_eval (1 / 400) 308025 555 (by norm_num) (by decide) (by norm_num)]
    norm_num
  have hr4 : roundDist2 (distSqQ 1 1 (26 / 25) 1) = (111 : ℚ) / 25 := by
    rw [show distSqQ 1 1 (26 / 25) 1 = 1 / 625 by unfold distSqQ; norm_num]
    rw [roundDist2_eval (1 / 625) 197136 444 (by norm_num) (by decide) (by norm_num)]
    norm_num
  have hr3 : roundDist2 (distSqQ 1 1 (103 / 100) 1) = (333 : ℚ) / 100 := by
    rw [show distSqQ 1 1 (103 / 100) 1 = 9 / 10000 by unfold distSqQ; norm_num]
    rw [roundDist2_eval (9 / 10000) 110889 333 (by norm_num) (by decide) (by norm_num)]
    norm_num
  have hr2 : roundDist2 (distSqQ 1 1 (51 / 50) 1) = (111 : ℚ) / 50 := by
    rw [show distSqQ 1 1 (51 / 50) 1 = 1 / 2500 by unfold distSqQ; norm_num]
    rw [roundDist2_eval (1 / 2500) 49284 222 (by norm_num) (by decide) (by norm_num)]
    norm_num
  have hr1 : roundDist2 (distSqQ 1 1 (101 / 100) 1) = (111 : ℚ) / 100 := by
    rw [show distSqQ 1 1 (101 / 100) 1 = 1 / 10000 by unfold distSqQ; norm_num]
    rw [roundDist2_eval (1 / 10000) 12321 111 (by norm_num) (by decide) (by norm_num)]
    norm_num
  have hw : ∀ q : ℚ, q = 21 / 20 ∨ q = 26 / 25 ∨ q = 103 / 100 ∨ q = 51 / 50 ∨
      q = 101 / 100 → withinRadius (distSqQ 1 1 q 1) 25 = true := by
    intro q hq
    unfold withinRadius distSqQ
    rcases hq with rfl | rfl | rfl | rfl | rfl <;> norm_num
  refine ⟨?_, ?_, by decide⟩
  · norm_num [get_gas_stations, hb, filterStations, applyGeo, textFiltersOk, truthyQ,
      truthyN, truthyS, hw (21 / 20) (by norm_num), hw (26 / 25) (by norm_num),
      sortB, distKey, hr5, hr4, List.insertionSort, List.orderedInsert,
      List.filterMap_cons]
  · norm_num [spec_filter_sort_slice, filterStations, applyGeo, textFiltersOk, truthyQ,
      truthyN, truthyS, viewOfStation, hw (21 / 20) (by norm_num),
      hw (26 / 25) (by norm_num), hw (103 / 100) (by norm_num),
      hw (51 / 50) (by norm_num), hw (101 / 100) (by norm_num),
      sortB, distKey, hr5, hr4, hr3, hr2, hr1, List.insertionSort, List.orderedInsert,
      List.filterMap_cons]

/-- C3 amended: with coordinates present, the pipeline applies the in-memory
filters to the (limit-capped) bulk feed, slices `[offset : offset + limit]`
of the filtered sequence, and only then sorts that page by annotated
distance ascending (999 standing in for a missing distance): the returned
stations are a permutation of the filtered-then-sliced page, in ascending
distance-key order. -/
theorem c3_amended_page_sorted (now : ℤ) (store : Store) (lat lng : Option ℚ)
    (radius_km : Option ℕ) (city state brand fuel_type : Option String)
    (limit offset : ℕ) (hgeo : (truthyQ lat && truthyQ lng) = true) :
    ((get_gas_stations now store lat lng radius_km city state brand fuel_type limit
        offset).1.stations).Perm
      (((filterStations lat lng radius_km city state brand
          (get_gas_stations_with_prices_bulk now store none fuel_type limit).1).drop
            offset).take limit) ∧
    List.Sorted (fun a b => distKey a ≤ distKey b)
      (get_gas_stations now store lat lng radius_km city state brand fuel_type limit
        offset).1.stations := by
  have hre : (get_gas_stations now store lat lng radius_km city state brand fuel_type limit
      offset).1.stations =
      sortB (fun a b => decide (distKey a ≤ distKey b))
        (((filterStations lat lng radius_km city state brand
          (get_gas_stations_with_prices_bulk now store none fuel_type limit).1).drop
            offset).take limit) := by
    simp [get_gas_stations, hgeo]
  constructor
  · rw [hre]
    exact List.perm_insertionSort _ _
  · rw [hre]
    unfold sortB
    haveI : IsTotal StationView (fun a b => decide (distKey a ≤ distKey b) = true) :=
      ⟨fun a b => by
        simp only [decide_eq_true_eq]
        exact le_total _ _⟩
    haveI : IsTrans StationView (fun a b => decide (distKey a ≤ distKey b) = true) :=
      ⟨fun a b c hab hbc => by
        simp only [decide_eq_true_eq] at hab hbc ⊢
        exact le_trans hab hbc⟩
    have hs := List.sorted_insertionSort
      (fun a b : StationView => decide (distKey a ≤ distKey b) = true)
      (((filterStations lat lng radius_km city state brand
        (get_gas_stations_with_prices_bulk now store none fuel_type limit).1).drop
          offset).take limit)
    exact hs.imp (fun h => by simpa using h)

/-- C3 witness: the permutation-and-sortedness characterisation instantiated
at the five-station counterexample store with limit 2, offset 1. -/
theorem c3_amended_page_sorted_witness :
    ((get_gas_stations 0
        ⟨[⟨"c", "c", none, none, none, none, 103 / 100, 1, true, true, true, 0, none, true⟩,
          ⟨"a", "a", none, none, none, none, 21 / 20, 1, true, true, true, 0, none, true⟩,
          ⟨"e", "e", none, none, none, none, 101 / 100, 1, true, true, true, 0, none, true⟩,
          ⟨"b", "b", none, none, none, none, 26 / 25, 1, true, true, true, 0, none, true⟩,
          ⟨"d", "d", none, none, none, none, 51 / 50, 1, true, true, true, 0, none, true⟩],
         [], []⟩
        (some 1) (some 1) (some 25) none none none none 2 1).1.stations).Perm
      (((filterStations (some 1) (some 1) (some 25) none none none
          (get_gas_stations_with_prices_bulk 0
            ⟨[⟨"c", "c", none, none, none, none, 103 / 100, 1, true, true, true, 0, none,
               true⟩,
              ⟨"a", "a", none, none, none, none, 21 / 20, 1, true, true, true, 0, none,
               true⟩,
              ⟨"e", "e", none, none, none, none, 101 / 100, 1, true, true, true, 0, none,
               true⟩,
              ⟨"b", "b", none, none, none, none, 26 / 25, 1, true, true, true, 0, none,
               true⟩,
              ⟨"d", "d", none, none, none, none, 51 / 50, 1, true, true, true, 0, none,
               true⟩],
             [], []⟩
            none none 2).1).drop 1).take 2) ∧
    List.Sorted (fun a b => distKey a ≤ distKey b)
      (get_gas_stations 0
        ⟨[⟨"c", "c", none, none, none, none, 103 / 100, 1, true, true, true, 0, none, true⟩,
          ⟨"a", "a", none, none, none, none, 21 / 20, 1, true, true, true, 0, none, true⟩,
          ⟨"e", "e", none, none, none, none, 101 / 100, 1, true, true, true, 0, none, true⟩,
          ⟨"b", "b", none, none, none, none, 26 / 25, 1, true, true, true, 0, none, true⟩,
          ⟨"d", "d", none, none, none, none, 51 / 50, 1, true, true, true, 0, none, true⟩],
         [], []⟩
        (some 1) (some 1) (some 25) none none none none 2 1).1.stations :=
  c3_amended_page_sorted 0
    ⟨[⟨"c", "c", none, none, none, none, 103 / 100, 1, true, true, true, 0, none, true⟩,
      ⟨"a", "a", none, none, none, none, 21 / 20, 1, true, true, true, 0, none, true⟩,
      ⟨"e", "e", none, none, none, none, 101 / 100, 1, true, true, true, 0, none, true⟩,
      ⟨"b", "b", none, none, none, none, 26 / 25, 1, true, true, true, 0, none, true⟩,
      ⟨"d", "d", none, none, none, none, 51 / 50, 1, true, true, true, 0, none, true⟩],
     [], []⟩
    (some 1) (some 1) (some 25) none none none none 2 1 (by decide)

end Gasoradar
